import Mathlib

/-!
Verification of the call-session state machine of the MME AI phone-intake
bot.  The definitions below are a shallow embedding of `src/main.py`
(routes `/voice-process`, `/voice-intake`, `/resume-choice`) and of the
Redis-backed store helpers of `src/app/app/state.py` / `src/main.py`:
sessions, call aliases, resume pointers and per-contractor live-call sets.
-/

namespace MmeBot

/-- Characters removed by Python's `str.strip()` (the ASCII whitespace set;
the code never feeds other Unicode whitespace through `strip`). -/
def isPySpace (c : Char) : Bool :=
  c == ' ' || c == '\t' || c == '\n' || c == '\r' || c == '\x0b' || c == '\x0c'

/-- Strip `p`-characters from both ends of a character list. -/
def stripL (p : Char → Bool) (l : List Char) : List Char :=
  ((l.dropWhile p).reverse.dropWhile p).reverse

/-- Embedding of Python `s.strip()`. -/
def pyStrip (s : String) : String :=
  String.mk (stripL isPySpace s.data)

/-- Embedding of Python `"".join(c for c in s if c.isdigit())`. -/
def digitsOnly (s : String) : String :=
  String.mk (s.data.filter Char.isDigit)

/-- One `CallSession` as stored in Redis (the JSON dict written by
`set_state`).  Fields that the code only ever tests for truthiness and that
`dict.pop` removes are modelled with `""` standing for "absent or empty",
which is behaviourally indistinguishable in the source (every access is a
truthiness test or a `.strip()`).  `contractor_key` keeps the
absent/present distinction because `state.get("contractor_key", "unknown")`
uses a non-empty default for an absent key. -/
structure Session where
  step : Nat := 0
  retries : Nat := 0
  name : String := ""
  service_address : String := ""
  job_description : String := ""
  timing : String := ""
  callback : String := ""
  call_sid : String := ""
  contractor_key : Option String := none
  name_candidate : String := ""
  name_attempts : Nat := 0
  name_confirmed : Option Bool := none
  address_intro_played : Bool := false
  addr_number : String := ""
  addr_street : String := ""
  addr_city : String := ""
  addr_zip : String := ""
deriving DecidableEq, Repr

/-- The external key-value store: the four keyspaces (sessions, aliases,
resume pointers, per-contractor live-call sets) plus `conn`, which models
whether `redis_client` is non-`None`.  TTLs are not modelled (no claim
depends on expiry timing). -/
structure Store where
  conn : Bool := true
  sessions : String → Option Session := fun _ => none
  aliases : String → Option String := fun _ => none
  resumePtrs : String × String → Option String := fun _ => none
  liveCalls : String → List String := fun _ => []

/-- One inbound webhook turn for `/voice-process`: the raw request values
used by the handler.  `step` is the `step` query parameter of the callback
URL; `digits`/`speech` are raw `Digits`/`SpeechResult` values (the handler
strips them itself). -/
structure Turn where
  call_sid : String := "unknown"
  step : Nat := 0
  digits : String := ""
  speech : String := ""
  to_number : String := ""
  from_number : String := ""
deriving DecidableEq, Repr

/-- The class of TwiML response a handler returns, one constructor per
return site of the source. -/
inductive Resp where
  | askName                       -- step 0: gather speech for the name
  | confirmName (c : String)      -- step 0: "I heard c, press 1/2"
  | askConfirmDigits              -- step 0: re-gather the confirm digit
  | acceptUnconfirmed             -- step 0: attempts capped, redirect step 1
  | repeatName                    -- step 0: press 2 under the cap, redirect step 0
  | acceptName                    -- step 0: press 1, redirect step 1
  | repromptConfirm0              -- step 0: other key
  | introAddress                  -- step 1: one-time intro, redirect step 1
  | askHouse | retryHouse | savedHouse
  | askStreet | savedStreet | askCity | savedCity | askZip | retryZip | savedZip
  | askJob                        -- step 1 done / step 2: gather job speech
  | confirmJob (j : String)       -- step 2: "I heard j, press 1/2"
  | askJobConfirmDigits           -- step 2: re-gather the confirm digit
  | repeatJob                     -- step 2: press 2, redirect step 2
  | confirmedJob                  -- step 2: press 1, redirect step 3
  | repromptConfirm2              -- step 2: other key
  | askTiming                     -- step 3: gather timing speech
  | hangupTiming                  -- step 3: retries exhausted, hang up
  | askCallback                   -- step 3 done / step 4: gather callback
  | completed                     -- step 4: close-out, say goodbye, hang up
  | noResponse                    -- step outside 0..4: handler falls through
  | restartIntake                 -- resume-choice: press 2, redirect /voice-intake
  | resumeAt (n : Nat)            -- resume-choice: resume, redirect step n
  | freshIntake                   -- resume-choice: nothing to resume
deriving DecidableEq, Repr

-- ======== store helpers (src/app/app/state.py, duplicated in src/main.py) ========

/-- `get_state`: `{}` (here `none`) unless the client is up and the sid
is non-empty and a record exists. -/
def get_state (st : Store) (call_sid : String) : Option Session :=
  if st.conn ∧ call_sid ≠ "" then st.sessions call_sid else none

/-- `set_state`: no-op unless the client is up and the sid is non-empty. -/
def set_state (st : Store) (call_sid : String) (s : Session) : Store :=
  if st.conn ∧ call_sid ≠ "" then
    { st with sessions := fun k => if k = call_sid then some s else st.sessions k }
  else st

/-- `clear_state`. -/
def clear_state (st : Store) (call_sid : String) : Store :=
  if st.conn ∧ call_sid ≠ "" then
    { st with sessions := fun k => if k = call_sid then none else st.sessions k }
  else st

/-- `set_call_alias`. -/
def set_call_alias (st : Store) (new_call_sid old_call_sid : String) : Store :=
  if st.conn ∧ new_call_sid ≠ "" ∧ old_call_sid ≠ "" then
    { st with aliases := fun k => if k = new_call_sid then some old_call_sid else st.aliases k }
  else st

/-- `get_call_alias`. -/
def get_call_alias (st : Store) (new_call_sid : String) : Option String :=
  if st.conn ∧ new_call_sid ≠ "" then
    match st.aliases new_call_sid with
    | some v => if v = "" then none else some v   -- `return v if v else None`
    | none => none
  else none

/-- `save_resume_pointer`. -/
def save_resume_pointer (st : Store) (to_number from_number call_sid : String) : Store :=
  if st.conn ∧ to_number ≠ "" ∧ from_number ≠ "" ∧ call_sid ≠ "" then
    { st with resumePtrs := fun k =>
        if k = (to_number, from_number) then some call_sid else st.resumePtrs k }
  else st

/-- `get_resume_pointer` (`if not value: return None`). -/
def get_resume_pointer (st : Store) (to_number from_number : String) : Option String :=
  if st.conn then
    match st.resumePtrs (to_number, from_number) with
    | some v => if v = "" then none else some v
    | none => none
  else none

/-- `clear_resume_pointer`. -/
def clear_resume_pointer (st : Store) (to_number from_number : String) : Store :=
  if st.conn then
    { st with resumePtrs := fun k =>
        if k = (to_number, from_number) then none else st.resumePtrs k }
  else st

/-- `register_live_call` (`SADD`: no duplicates). -/
def register_live_call (st : Store) (contractor_key call_sid : String) : Store :=
  if st.conn ∧ contractor_key ≠ "" ∧ call_sid ≠ "" then
    { st with liveCalls := fun k =>
        if k = contractor_key then
          if call_sid ∈ st.liveCalls contractor_key then st.liveCalls contractor_key
          else st.liveCalls contractor_key ++ [call_sid]
        else st.liveCalls k }
  else st

/-- `unregister_live_call` (`SREM` removes the member). -/
def unregister_live_call (st : Store) (contractor_key call_sid : String) : Store :=
  if st.conn ∧ contractor_key ≠ "" ∧ call_sid ≠ "" then
    { st with liveCalls := fun k =>
        if k = contractor_key then (st.liveCalls contractor_key).filter (· ≠ call_sid)
        else st.liveCalls k }
  else st

/-- `list_live_calls`. -/
def list_live_calls (st : Store) (contractor_key : String) : List String :=
  if st.conn ∧ contractor_key ≠ "" then st.liveCalls contractor_key else []

-- ======== /voice-process (src/main.py lines 691-1335) ========

/-- `_resume_step_from_fields` (both the copy in `/voice-menu` and the one
in `/voice-process`): first empty field among name, service_address,
job_description, timing decides the step. -/
def resume_step_from_fields (s : Session) : Nat :=
  if pyStrip s.name = "" then 0
  else if pyStrip s.service_address = "" then 1
  else if pyStrip s.job_description = "" then 2
  else if pyStrip s.timing = "" then 3
  else 4

/-- Result of the identity-resolution / state-loading prefix of
`/voice-process` (lines 715-792): the store after the alias write and the
early saves, the canonical call sid, the loaded session (with the
defaulted keys and the callback fill-in applied), and the step the turn
will be dispatched at. -/
structure Resolved where
  store : Store
  sid : String
  session : Session
  rstep : Nat

/-- Lines 715-740 of `/voice-process`: follow a stored alias, look up the
resume pointer for fresh-leg (`step=0`) turns, and when it names a
different sid, record the alias and swap to the old sid.  Returns the
store (with the possible alias write) and the canonical call sid. -/
def resolve_swap (st : Store) (t : Turn) : Store × String :=
  let to_number := pyStrip t.to_number
  let from_number := pyStrip t.from_number
  let new_call_sid := t.call_sid
  let aliased := get_call_alias st new_call_sid
  let call_sid1 := match aliased with
    | some a => a
    | none => new_call_sid
  let old_call_sid : Option String :=
    if t.step = 0 ∧ st.conn ∧ to_number ≠ "" ∧ from_number ≠ "" then
      get_resume_pointer st to_number from_number
    else none
  match old_call_sid with
  | some old =>
      if old ≠ new_call_sid then (set_call_alias st new_call_sid old, old)
      else (st, call_sid1)
  | none => (st, call_sid1)

/-- Lines 715-792 of `/voice-process`: identity resolution, session load,
key defaulting, the callback fill-in, and the field-presence step
inference that overrides a `step=0` request. -/
def resolve_turn (st : Store) (t : Turn) : Resolved :=
  let st1 := (resolve_swap st t).1
  let call_sid := (resolve_swap st t).2
  let state0 := (get_state st1 call_sid).getD {}
  -- `state["call_sid"] = call_sid`; setdefault for the listed keys;
  -- `state["callback"] = state["callback"] or request.values.get("From","")`
  let state1 := { state0 with
    call_sid := call_sid,
    callback := if state0.callback ≠ "" then state0.callback else t.from_number }
  let inferred := resume_step_from_fields state1
  let res : Store × Session × Nat :=
    if t.step = 0 ∧ inferred > 0 then
      let s' := { state1 with step := inferred }
      (set_state st1 call_sid s', s', inferred)
    else (st1, state1, t.step)
  -- line 792: unconditional `set_state(call_sid, state)`
  ⟨set_state res.1 call_sid res.2.1, call_sid, res.2.1, res.2.2⟩

/-- Step 0 of `/voice-process`: collect and confirm the caller's name
(lines 797-922). -/
def step0_run (st : Store) (call_sid : String) (s : Session)
    (digits speech to_number from_number : String) : Store × Resp :=
  let name_candidate := pyStrip s.name_candidate
  if name_candidate = "" ∧ speech = "" then (st, .askName)
  else if speech ≠ "" ∧ name_candidate = "" then
    let s' := { s with name_candidate := pyStrip speech }
    (set_state st call_sid s', .confirmName s'.name_candidate)
  else if digits = "" then (st, .askConfirmDigits)
  else if digits = "2" then
    let attempts := s.name_attempts + 1
    if attempts ≥ 2 then
      let best_guess := pyStrip s.name_candidate
      let s' := { s with
        name := best_guess, name_confirmed := some false,
        name_attempts := 0, name_candidate := "", step := 1, retries := 0 }
      let stA := set_state st call_sid s'
      (save_resume_pointer stA to_number from_number call_sid, .acceptUnconfirmed)
    else
      let s' := { s with name_attempts := attempts, name_candidate := "" }
      (set_state st call_sid s', .repeatName)
  else if digits = "1" then
    let s' := { s with
      name := pyStrip s.name_candidate, name_confirmed := some true,
      name_attempts := 0, name_candidate := "", retries := 0, step := 1 }
    let stA := set_state st call_sid s'
    (save_resume_pointer stA to_number from_number call_sid, .acceptName)
  else (st, .repromptConfirm0)

/-- Step 1 of `/voice-process`: the four-part service address
(lines 925-1108). -/
def step1_run (st : Store) (call_sid : String) (s : Session)
    (digits speech to_number from_number : String) : Store × Resp :=
  if ¬ s.address_intro_played then
    let s' := { s with address_intro_played := true, retries := 0 }
    let stA := set_state st call_sid s'
    (save_resume_pointer stA to_number from_number call_sid, .introAddress)
  else if s.addr_number = "" then
    if digits = "" then (st, .askHouse)
    else
      let house_num := pyStrip (digitsOnly digits)
      if house_num.length < 1 then (st, .retryHouse)
      else
        let s' := { s with addr_number := house_num, retries := 0 }
        let stA := set_state st call_sid s'
        (save_resume_pointer stA to_number from_number call_sid, .savedHouse)
  else if s.addr_street = "" then
    if speech = "" then (st, .askStreet)
    else
      let s' := { s with addr_street := pyStrip speech, retries := 0 }
      let stA := set_state st call_sid s'
      (save_resume_pointer stA to_number from_number call_sid, .savedStreet)
  else if s.addr_city = "" then
    if speech = "" then (st, .askCity)
    else
      let s' := { s with addr_city := pyStrip speech, retries := 0 }
      let stA := set_state st call_sid s'
      (save_resume_pointer stA to_number from_number call_sid, .savedCity)
  else if s.addr_zip = "" then
    if digits = "" then (st, .askZip)
    else
      let zip_digits := digitsOnly digits
      if zip_digits.length ≠ 5 then (st, .retryZip)
      else
        let s' := { s with addr_zip := zip_digits, retries := 0 }
        let stA := set_state st call_sid s'
        (save_resume_pointer stA to_number from_number call_sid, .savedZip)
  else
    let s' := { s with
      service_address :=
        s.addr_number ++ " " ++ s.addr_street ++ ", " ++ s.addr_city ++ " " ++ s.addr_zip,
      step := 2, retries := 0 }
    let stA := set_state st call_sid s'
    (save_resume_pointer stA to_number from_number call_sid, .askJob)

/-- Step 2 of `/voice-process`: job description plus confirm/repeat
(lines 1112-1208). -/
def step2_run (st : Store) (call_sid : String) (s : Session)
    (digits speech to_number from_number : String) : Store × Resp :=
  if s.job_description = "" then
    if speech = "" then (st, .askJob)
    else
      let s' := { s with job_description := pyStrip speech, step := 2 }
      let stA := set_state st call_sid s'
      (save_resume_pointer stA to_number from_number call_sid, .confirmJob s'.job_description)
  else if digits = "" then (st, .askJobConfirmDigits)
  else if digits = "2" then
    let s' := { s with job_description := "" }   -- `state.pop("job_description", None)`
    (set_state st call_sid s', .repeatJob)
  else if digits = "1" then
    let s' := { s with step := 3, retries := 0 }
    let stA := set_state st call_sid s'
    (save_resume_pointer stA to_number from_number call_sid, .confirmedJob)
  else (st, .repromptConfirm2)

/-- Step 3 of `/voice-process`: timing (lines 1213-1266). -/
def step3_run (st : Store) (call_sid : String) (s : Session)
    (speech to_number from_number : String) : Store × Resp :=
  if speech = "" then
    let s' := { s with retries := s.retries + 1 }
    let stA := set_state st call_sid s'
    if s'.retries ≥ 2 then (stA, .hangupTiming) else (stA, .askTiming)
  else
    let s' := { s with timing := pyStrip speech, retries := 0, step := 4 }
    let stA := set_state st call_sid s'
    (save_resume_pointer stA to_number from_number call_sid, .askCallback)

/-- Step 4 of `/voice-process`: callback number and close-out
(lines 1269-1335).  `crmFails` models `send_intake_summary` raising; the
handler catches the exception, so the flag influences nothing. -/
def step4_run (st : Store) (call_sid : String) (s : Session)
    (digits speech to_number from_number from_raw : String) (crmFails : Bool) :
    Store × Resp :=
  let callback_val := pyStrip (if digits ≠ "" then digits else speech)
  if callback_val = "" then (st, .askCallback)
  else
    let callback_digits0 := digitsOnly callback_val
    let callback_digits :=
      if callback_digits0.length < 7 then pyStrip from_raw else callback_digits0
    let s' := { s with callback := callback_digits }
    let stA := set_state st call_sid s'
    let stB := save_resume_pointer stA to_number from_number call_sid
    -- `try: send_intake_summary(state) except ...` — failure swallowed
    let stC := if crmFails then stB else stB
    let stD := if stC.conn ∧ to_number ≠ "" ∧ from_number ≠ "" then
                 clear_resume_pointer stC to_number from_number
               else stC
    let stE := unregister_live_call stD (s'.contractor_key.getD "unknown") call_sid
    (clear_state stE call_sid, .completed)

/-- The whole `/voice-process` handler. -/
def voice_process (st : Store) (t : Turn) (crmFails : Bool) : Store × Resp :=
  let digits := pyStrip t.digits
  let speech := pyStrip t.speech
  let to_number := pyStrip t.to_number
  let from_number := pyStrip t.from_number
  let r := resolve_turn st t
  if r.rstep = 0 then
    step0_run r.store r.sid r.session digits speech to_number from_number
  else if r.rstep = 1 then
    step1_run r.store r.sid r.session digits speech to_number from_number
  else if r.rstep = 2 then
    step2_run r.store r.sid r.session digits speech to_number from_number
  else if r.rstep = 3 then
    step3_run r.store r.sid r.session speech to_number from_number
  else if r.rstep = 4 then
    step4_run r.store r.sid r.session digits speech to_number from_number
      t.from_number crmFails
  else (r.store, .noResponse)

-- ======== /voice-intake (lines 584-640) ========

/-- `/voice-intake`: create a fresh session for the leg and register the
live call.  `started_at` is not modelled (wall-clock time; nothing reads
it). -/
def voice_intake (st : Store) (call_sid to_raw from_raw : String) : Store × Resp :=
  let to_number := pyStrip to_raw
  let from_number := pyStrip from_raw
  let contractor_key := if to_number ≠ "" then to_number else "unknown"
  let s : Session := {
    step := 0, callback := from_number, retries := 0,
    name := "", service_address := "", job_description := "", timing := "",
    call_sid := call_sid, contractor_key := some contractor_key }
  let st1 := set_state st call_sid s
  (register_live_call st1 contractor_key call_sid, .askName)

-- ======== /resume-choice (lines 515-555) ========

/-- `/resume-choice`: press 2 restarts (clears only the resume pointer);
anything else (silence included) resumes by aliasing the new leg to the
old sid and re-saving the pointer. -/
def resume_choice (st : Store) (new_call_sid digits_raw to_raw from_raw : String)
    (old_call_sid : String) (inferred_step : Nat) : Store × Resp :=
  let digits0 := pyStrip digits_raw
  let digits := if digits0 = "" then "1" else digits0
  let to_number := pyStrip to_raw
  let from_number := pyStrip from_raw
  if digits = "2" then
    let st1 := if st.conn ∧ to_number ≠ "" ∧ from_number ≠ "" then
                 clear_resume_pointer st to_number from_number
               else st
    (st1, .restartIntake)
  else if old_call_sid ≠ "" ∧ inferred_step > 0 then
    let st1 := set_call_alias st new_call_sid old_call_sid
    let st2 := save_resume_pointer st1 to_number from_number old_call_sid
    (st2, .resumeAt inferred_step)
  else (st, .freshIntake)

-- ======== scenario combinators ========

/-- One confirm/repeat round at step 2: the caller speaks a job
description `d`, then presses 2 at the confirmation prompt. -/
def job_repeat_cycle (sid d to_raw from_raw : String) (crm : Bool) (st : Store) : Store :=
  (voice_process
    ((voice_process st
        { call_sid := sid, step := 2, digits := "", speech := d,
          to_number := to_raw, from_number := from_raw } crm).1)
    { call_sid := sid, step := 2, digits := "2", speech := "",
      to_number := to_raw, from_number := from_raw } crm).1

/-- The step-2 waiting configuration: connected store, no alias for the
sid, and a session at the sid with an empty job description and stored
step 2. -/
def step2_waiting (sid : String) (st : Store) : Prop :=
  st.conn = true ∧ st.aliases sid = none ∧
  ∃ s : Session, st.sessions sid = some s ∧ s.job_description = "" ∧ s.step = 2

-- ======== concrete scenario fixtures ========

/-- A webhook turn of the demo conversation: called number `+1555`,
caller `+1777`. -/
def demoTurn (sid : String) (step : Nat) (digits speech : String) : Turn :=
  { call_sid := sid, step := step, digits := digits, speech := speech,
    to_number := "+1555", from_number := "+1777" }

/-- The demo conversation, one store per processed turn: a fresh intake
for leg `CA1` followed by the full in-order intake flow (name spoken and
confirmed, address intro, house number, street, city, zip, assembly, job
spoken and confirmed, timing).  No restart occurs anywhere in the
trace. -/
def demo0 : Store := (voice_intake {} "CA1" "+1555" "+1777").1

def demo1 : Store := (voice_process demo0 (demoTurn "CA1" 0 "" "Jane Doe") false).1

def demo2 : Store := (voice_process demo1 (demoTurn "CA1" 0 "1" "") false).1

def demo3 : Store := (voice_process demo2 (demoTurn "CA1" 1 "" "") false).1

def demo4 : Store := (voice_process demo3 (demoTurn "CA1" 1 "45" "") false).1

def demo5 : Store := (voice_process demo4 (demoTurn "CA1" 1 "" "Oak Street") false).1

def demo6 : Store := (voice_process demo5 (demoTurn "CA1" 1 "" "Bowie") false).1

def demo7 : Store := (voice_process demo6 (demoTurn "CA1" 1 "20715" "") false).1

def demo8 : Store := (voice_process demo7 (demoTurn "CA1" 1 "" "") false).1

def demo9 : Store := (voice_process demo8 (demoTurn "CA1" 2 "" "fix sink") false).1

def demo10 : Store := (voice_process demo9 (demoTurn "CA1" 2 "1" "") false).1

def demo11 : Store := (voice_process demo10 (demoTurn "CA1" 3 "" "tomorrow") false).1

/-- Session fixture for the resume-correctness witness: name and address
collected, job description still empty, stored step left at 0. -/
def resumeSession : Session :=
  { step := 0, name := "Jane Doe", service_address := "45 Oak Street, Bowie 20715",
    callback := "+1777", call_sid := "CA1", contractor_key := some "+1555" }

/-- Store fixture for the resume-correctness witness: the session above
under `CA1` plus a resume pointer for the pair. -/
def resumeStore : Store :=
  { sessions := fun k => if k = "CA1" then some resumeSession else none,
    resumePtrs := fun k => if k = ("+1555", "+1777") then some "CA1" else none }

/-- Store fixture for the alias-single-hop witness: `CB` already aliases
to `CA`, and the resume pointer for the pair still names `CA`. -/
def aliasStore : Store :=
  { aliases := fun k => if k = "CB" then some "CA" else none,
    resumePtrs := fun k => if k = ("+1555", "+1777") then some "CA" else none }

/-- Session fixture for the completion close-out witness: all fields
collected, session at step 4. -/
def closeoutSession : Session :=
  { step := 4, name := "Jane", service_address := "45 Oak Street, Bowie 20715",
    job_description := "fix sink", timing := "tomorrow", callback := "+1777",
    call_sid := "CA9", contractor_key := some "+1555" }

/-- Store fixture for the completion close-out witness. -/
def closeoutStore : Store :=
  { sessions := fun k => if k = "CA9" then some closeoutSession else none,
    resumePtrs := fun k => if k = ("+1555", "+1777") then some "CA9" else none,
    liveCalls := fun k => if k = "+1555" then ["CA9"] else [] }

/-- Session fixture for the retry-cap witness: at step 0 holding a spoken
candidate with no repeat presses yet. -/
def retrySession : Session :=
  { step := 0, callback := "+1777", call_sid := "CA1",
    contractor_key := some "+1555", name_candidate := "Jane Doe" }

/-- Store fixture for the retry-cap witness. -/
def retryStore : Store :=
  { sessions := fun k => if k = "CA1" then some retrySession else none }

/-- Session fixture at step 3, waiting for the timing answer. -/
def step3Session : Session :=
  { step := 3, name := "Jane", service_address := "45 Oak Street, Bowie 20715",
    job_description := "fix sink", callback := "+1777", call_sid := "CA9",
    contractor_key := some "+1555" }

/-- Store fixture at step 3, waiting for the timing answer. -/
def step3Store : Store :=
  { sessions := fun k => if k = "CA9" then some step3Session else none }

/-- Session fixture at the step-2 confirmation prompt: job description
spoken, waiting for the confirm digit. -/
def confirmSession : Session :=
  { step := 2, name := "Jane", service_address := "45 Oak Street, Bowie 20715",
    job_description := "fix sink", callback := "+1777", call_sid := "CA9",
    contractor_key := some "+1555" }

/-- Store fixture at the step-2 confirmation prompt. -/
def confirmStore : Store :=
  { sessions := fun k => if k = "CA9" then some confirmSession else none }

/-- Session fixture waiting for a job description at step 2 (empty job,
used for the unbounded-repeat witness). -/
def waitingSession : Session :=
  { step := 2, name := "Jane", service_address := "45 Oak Street, Bowie 20715",
    callback := "+1777", call_sid := "CA9", contractor_key := some "+1555" }

/-- Store fixture waiting for a job description at step 2. -/
def waitingStore : Store :=
  { sessions := fun k => if k = "CA9" then some waitingSession else none }

-- ======== basic lemmas about the strip embedding ========

theorem dropWhile_dropWhile (p : Char → Bool) (l : List Char) :
    (l.dropWhile p).dropWhile p = l.dropWhile p := by
  induction l with
  | nil => rfl
  | cons a t ih =>
    by_cases h : p a
    · simp [List.dropWhile_cons, h, ih]
    · simp [List.dropWhile_cons, h]

theorem head?_dropWhile_not (p : Char → Bool) (l : List Char) (a : Char)
    (h : (l.dropWhile p).head? = some a) : p a = false := by
  induction l with
  | nil => simp [List.dropWhile] at h
  | cons b t ih =>
    by_cases hb : p b
    · simp [List.dropWhile_cons, hb] at h
      exact ih h
    · simp [List.dropWhile_cons, hb] at h
      subst h
      simpa using hb

theorem dropWhile_isSuffix (p : Char → Bool) (l : List Char) :
    ∃ t, t ++ l.dropWhile p = l :=
  ⟨l.takeWhile p, List.takeWhile_append_dropWhile p l⟩

theorem getLast?_dropWhile (p : Char → Bool) (l : List Char)
    (h : l.dropWhile p ≠ []) : (l.dropWhile p).getLast? = l.getLast? := by
  obtain ⟨t, ht⟩ := dropWhile_isSuffix p l
  conv_rhs => rw [← ht]
  rw [List.getLast?_append_of_ne_nil t h]

/-- The right-strip commutes with the left-strip. -/
theorem dropWhile_rdrop_comm (p : Char → Bool) (l : List Char) :
    (((l.dropWhile p).reverse.dropWhile p)).reverse.dropWhile p
      = ((l.dropWhile p).reverse.dropWhile p).reverse := by
  set D := l.dropWhile p with hD
  by_cases hE : D.reverse.dropWhile p = []
  · simp [hE]
  · -- the last element of the right-stripped list is the head of D, which
    -- does not satisfy p, hence left-stripping it is the identity
    have hDne : D ≠ [] := by
      intro h; apply hE; simp [h]
    obtain ⟨a, t, hat⟩ := List.exists_cons_of_ne_nil hDne
    have hpa : p a = false := by
      apply head?_dropWhile_not p l
      rw [← hD, hat]; rfl
    have hlast : (D.reverse.dropWhile p).getLast? = some a := by
      rw [getLast?_dropWhile p D.reverse hE]
      rw [hat]; simp
    -- head of the reverse is the last element
    have hhead : ((D.reverse.dropWhile p)).reverse.head? = some a := by
      rw [List.head?_reverse]; exact hlast
    cases hrev : ((D.reverse.dropWhile p)).reverse with
    | nil => simp [hrev] at hhead
    | cons b u =>
      have : b = a := by simp [hrev] at hhead; exact hhead
      subst this
      simp [List.dropWhile_cons, hpa]

theorem stripL_idem (p : Char → Bool) (l : List Char) :
    stripL p (stripL p l) = stripL p l := by
  unfold stripL
  rw [dropWhile_rdrop_comm p l]
  rw [List.reverse_reverse, dropWhile_dropWhile]

theorem pyStrip_idem (s : String) : pyStrip (pyStrip s) = pyStrip s := by
  unfold pyStrip
  exact congrArg String.mk (stripL_idem isPySpace s.data)

theorem stripL_eq_nil_iff (p : Char → Bool) (l : List Char) :
    stripL p l = [] ↔ ∀ c ∈ l, p c := by
  unfold stripL
  constructor
  · intro h c hc
    have h1 : (l.dropWhile p).reverse.dropWhile p = [] := by
      simpa using h
    have h2 : ∀ x ∈ (l.dropWhile p).reverse, p x := by
      rw [List.dropWhile_eq_nil_iff] at h1
      exact h1
    have h3 : ∀ x ∈ l.dropWhile p, p x := by
      intro x hx; exact h2 x (by simpa using hx)
    have h4 : ∀ x ∈ l.takeWhile p, p x := fun x hx => List.mem_takeWhile_imp hx
    rw [← List.takeWhile_append_dropWhile p l] at hc
    rcases List.mem_append.mp hc with h | h
    · exact h4 c h
    · exact h3 c h
  · intro h
    have h1 : l.dropWhile p = [] := List.dropWhile_eq_nil_iff.mpr h
    simp [h1]

/-- A string containing a character that is not `p`-whitespace does not
strip to the empty string. -/
theorem stripL_ne_nil_of_mem (p : Char → Bool) (l : List Char) (c : Char)
    (hc : c ∈ l) (hp : p c = false) : stripL p l ≠ [] := by
  intro h
  have := (stripL_eq_nil_iff p l).mp h c hc
  rw [hp] at this
  exact Bool.noConfusion this

-- ======== store helpers when the client is down ========

theorem get_state_disconnected (st : Store) (sid : String) (h : st.conn = false) :
    get_state st sid = none := by
  simp [get_state, h]

theorem set_state_disconnected (st : Store) (sid : String) (s : Session)
    (h : st.conn = false) : set_state st sid s = st := by
  simp [set_state, h]

theorem clear_state_disconnected (st : Store) (sid : String) (h : st.conn = false) :
    clear_state st sid = st := by
  simp [clear_state, h]

theorem set_call_alias_disconnected (st : Store) (a b : String) (h : st.conn = false) :
    set_call_alias st a b = st := by
  simp [set_call_alias, h]

theorem get_call_alias_disconnected (st : Store) (a : String) (h : st.conn = false) :
    get_call_alias st a = none := by
  simp [get_call_alias, h]

theorem save_resume_pointer_disconnected (st : Store) (a b c : String)
    (h : st.conn = false) : save_resume_pointer st a b c = st := by
  simp [save_resume_pointer, h]

theorem get_resume_pointer_disconnected (st : Store) (a b : String)
    (h : st.conn = false) : get_resume_pointer st a b = none := by
  simp [get_resume_pointer, h]

theorem clear_resume_pointer_disconnected (st : Store) (a b : String)
    (h : st.conn = false) : clear_resume_pointer st a b = st := by
  simp [clear_resume_pointer, h]

theorem register_live_call_disconnected (st : Store) (a b : String)
    (h : st.conn = false) : register_live_call st a b = st := by
  simp [register_live_call, h]

theorem unregister_live_call_disconnected (st : Store) (a b : String)
    (h : st.conn = false) : unregister_live_call st a b = st := by
  simp [unregister_live_call, h]

theorem list_live_calls_disconnected (st : Store) (a : String)
    (h : st.conn = false) : list_live_calls st a = [] := by
  simp [list_live_calls, h]

/-- With the client down, every step handler leaves the store untouched
and its response is a function of the loaded (empty) session and inputs
alone. -/
theorem step_runs_disconnected (st : Store) (sid : String) (s : Session)
    (digits speech to_number from_number from_raw : String) (crm : Bool)
    (h : st.conn = false) :
    (step0_run st sid s digits speech to_number from_number).1 = st ∧
    (step1_run st sid s digits speech to_number from_number).1 = st ∧
    (step2_run st sid s digits speech to_number from_number).1 = st ∧
    (step3_run st sid s speech to_number from_number).1 = st ∧
    (step4_run st sid s digits speech to_number from_number from_raw crm).1 = st := by
  refine ⟨?_, ?_, ?_, ?_, ?_⟩ <;>
  · simp only [step0_run, step1_run, step2_run, step3_run, step4_run]
    repeat' split
    all_goals first
      | rfl
      | simp_all [set_state_disconnected, save_resume_pointer_disconnected,
          clear_resume_pointer_disconnected, unregister_live_call_disconnected,
          clear_state_disconnected]

/-- With the client down, identity resolution finds nothing: the turn's
own sid stays canonical, the loaded session is the fresh default (with
only the caller-id callback fill-in), and the dispatch step is the
request's step parameter. -/
theorem resolve_swap_disconnected (st : Store) (t : Turn) (h : st.conn = false) :
    resolve_swap st t = (st, t.call_sid) := by
  simp [resolve_swap, get_call_alias_disconnected _ _ h,
    get_resume_pointer_disconnected _ _ _ h, h]

theorem resolve_turn_disconnected (st : Store) (t : Turn) (h : st.conn = false) :
    resolve_turn st t =
      ⟨st, t.call_sid, { call_sid := t.call_sid, callback := t.from_number }, t.step⟩ := by
  simp only [resolve_turn, resolve_swap_disconnected st t h]
  simp [h, set_state_disconnected _ _ _ h, resume_step_from_fields, pyStrip, stripL,
    get_state_disconnected _ _ h]

/-- Handler responses never read the store: the second component of every
step handler is independent of the store argument. -/
theorem step_run_resp_indep (st st' : Store) (sid : String) (s : Session)
    (digits speech to_number from_number from_raw : String) (crm : Bool) :
    (step0_run st sid s digits speech to_number from_number).2 =
      (step0_run st' sid s digits speech to_number from_number).2 ∧
    (step1_run st sid s digits speech to_number from_number).2 =
      (step1_run st' sid s digits speech to_number from_number).2 ∧
    (step2_run st sid s digits speech to_number from_number).2 =
      (step2_run st' sid s digits speech to_number from_number).2 ∧
    (step3_run st sid s speech to_number from_number).2 =
      (step3_run st' sid s speech to_number from_number).2 ∧
    (step4_run st sid s digits speech to_number from_number from_raw crm).2 =
      (step4_run st' sid s digits speech to_number from_number from_raw crm).2 := by
  refine ⟨?_, ?_, ?_, ?_, ?_⟩ <;>
  · simp only [step0_run, step1_run, step2_run, step3_run, step4_run]
    repeat' split
    all_goals rfl

/-- C10: when the key-value store cannot be reached (`redis_client` is
`None`, modelled by `conn = false`), every state / alias / resume-pointer /
live-call read returns the empty result, every write or delete is a no-op,
and a `/voice-process` turn leaves the store untouched and produces exactly
the response it would produce on a completely empty store — i.e. it behaves
as a fresh conversation instead of crashing. -/
theorem c10_store_unavailable_degraded (st : Store) (h : st.conn = false) :
    (∀ sid, get_state st sid = none) ∧
    (∀ sid, get_call_alias st sid = none) ∧
    (∀ a b, get_resume_pointer st a b = none) ∧
    (∀ k, list_live_calls st k = []) ∧
    (∀ sid s, set_state st sid s = st) ∧
    (∀ sid, clear_state st sid = st) ∧
    (∀ a b, set_call_alias st a b = st) ∧
    (∀ a b c, save_resume_pointer st a b c = st) ∧
    (∀ a b, clear_resume_pointer st a b = st) ∧
    (∀ k sid, register_live_call st k sid = st) ∧
    (∀ k sid, unregister_live_call st k sid = st) ∧
    (∀ t crm, (voice_process st t crm).1 = st ∧
      (voice_process st t crm).2 = (voice_process { conn := false } t crm).2) := by
  refine ⟨fun sid => get_state_disconnected st sid h,
    fun sid => get_call_alias_disconnected st sid h,
    fun a b => get_resume_pointer_disconnected st a b h,
    fun k => list_live_calls_disconnected st k h,
    fun sid s => set_state_disconnected st sid s h,
    fun sid => clear_state_disconnected st sid h,
    fun a b => set_call_alias_disconnected st a b h,
    fun a b c => save_resume_pointer_disconnected st a b c h,
    fun a b => clear_resume_pointer_disconnected st a b h,
    fun k sid => register_live_call_disconnected st k sid h,
    fun k sid => unregister_live_call_disconnected st k sid h,
    fun t crm => ?_⟩
  have hres := resolve_turn_disconnected st t h
  have hres' := resolve_turn_disconnected { conn := false } t rfl
  have hrun := step_runs_disconnected st t.call_sid
    { call_sid := t.call_sid, callback := t.from_number }
    (pyStrip t.digits) (pyStrip t.speech) (pyStrip t.to_number) (pyStrip t.from_number)
    t.from_number crm h
  have hresp := step_run_resp_indep st { conn := false } t.call_sid
    { call_sid := t.call_sid, callback := t.from_number }
    (pyStrip t.digits) (pyStrip t.speech) (pyStrip t.to_number) (pyStrip t.from_number)
    t.from_number crm
  constructor
  · simp only [voice_process, hres]
    rcases eq_or_ne t.step 0 with h0 | h0
    · simpa [h0] using hrun.1
    rcases eq_or_ne t.step 1 with h1 | h1
    · simpa [h0, h1] using hrun.2.1
    rcases eq_or_ne t.step 2 with h2 | h2
    · simpa [h0, h1, h2] using hrun.2.2.1
    rcases eq_or_ne t.step 3 with h3 | h3
    · simpa [h0, h1, h2, h3] using hrun.2.2.2.1
    rcases eq_or_ne t.step 4 with h4 | h4
    · simpa [h0, h1, h2, h3, h4] using hrun.2.2.2.2
    simp [h0, h1, h2, h3, h4]
  · simp only [voice_process, hres, hres']
    rcases eq_or_ne t.step 0 with h0 | h0
    · simpa [h0] using hresp.1
    rcases eq_or_ne t.step 1 with h1 | h1
    · simpa [h0, h1] using hresp.2.1
    rcases eq_or_ne t.step 2 with h2 | h2
    · simpa [h0, h1, h2] using hresp.2.2.1
    rcases eq_or_ne t.step 3 with h3 | h3
    · simpa [h0, h1, h2, h3] using hresp.2.2.2.1
    rcases eq_or_ne t.step 4 with h4 | h4
    · simpa [h0, h1, h2, h3, h4] using hresp.2.2.2.2
    simp [h0, h1, h2, h3, h4]

/-- Witness for C10 at a concrete disconnected store and turn. -/
theorem c10_store_unavailable_degraded_witness :
    ({ conn := false, sessions := fun k => if k = "CA7" then some { name := "Jane" } else none
       : Store }).conn = false ∧
    get_state { conn := false, sessions := fun k => if k = "CA7" then some { name := "Jane" } else none } "CA7" = none := by
  constructor
  · rfl
  · exact (c10_store_unavailable_degraded
      { conn := false, sessions := fun k => if k = "CA7" then some { name := "Jane" } else none }
      rfl).1 "CA7"

-- ======== projection lemmas for the store operations ========

theorem set_state_conn (st : Store) (sid : String) (s : Session) :
    (set_state st sid s).conn = st.conn := by
  unfold set_state; split <;> rfl

theorem set_state_aliases (st : Store) (sid : String) (s : Session) :
    (set_state st sid s).aliases = st.aliases := by
  unfold set_state; split <;> rfl

theorem set_state_resumePtrs (st : Store) (sid : String) (s : Session) :
    (set_state st sid s).resumePtrs = st.resumePtrs := by
  unfold set_state; split <;> rfl

theorem set_state_liveCalls (st : Store) (sid : String) (s : Session) :
    (set_state st sid s).liveCalls = st.liveCalls := by
  unfold set_state; split <;> rfl

theorem set_state_sessions_eq (st : Store) (sid : String) (s : Session)
    (hconn : st.conn = true) (hsid : sid ≠ "") :
    (set_state st sid s).sessions = fun k => if k = sid then some s else st.sessions k := by
  simp [set_state, hconn, hsid]

theorem clear_state_conn (st : Store) (sid : String) :
    (clear_state st sid).conn = st.conn := by
  unfold clear_state; split <;> rfl

theorem clear_state_aliases (st : Store) (sid : String) :
    (clear_state st sid).aliases = st.aliases := by
  unfold clear_state; split <;> rfl

theorem clear_state_resumePtrs (st : Store) (sid : String) :
    (clear_state st sid).resumePtrs = st.resumePtrs := by
  unfold clear_state; split <;> rfl

theorem clear_state_liveCalls (st : Store) (sid : String) :
    (clear_state st sid).liveCalls = st.liveCalls := by
  unfold clear_state; split <;> rfl

theorem clear_state_sessions_eq (st : Store) (sid : String)
    (hconn : st.conn = true) (hsid : sid ≠ "") :
    (clear_state st sid).sessions = fun k => if k = sid then none else st.sessions k := by
  simp [clear_state, hconn, hsid]

theorem set_call_alias_conn (st : Store) (a b : String) :
    (set_call_alias st a b).conn = st.conn := by
  unfold set_call_alias; split <;> rfl

theorem set_call_alias_sessions (st : Store) (a b : String) :
    (set_call_alias st a b).sessions = st.sessions := by
  unfold set_call_alias; split <;> rfl

theorem set_call_alias_resumePtrs (st : Store) (a b : String) :
    (set_call_alias st a b).resumePtrs = st.resumePtrs := by
  unfold set_call_alias; split <;> rfl

theorem set_call_alias_liveCalls (st : Store) (a b : String) :
    (set_call_alias st a b).liveCalls = st.liveCalls := by
  unfold set_call_alias; split <;> rfl

theorem set_call_alias_aliases_eq (st : Store) (a b : String)
    (hconn : st.conn = true) (ha : a ≠ "") (hb : b ≠ "") :
    (set_call_alias st a b).aliases = fun k => if k = a then some b else st.aliases k := by
  simp [set_call_alias, hconn, ha, hb]

theorem save_resume_pointer_conn (st : Store) (a b c : String) :
    (save_resume_pointer st a b c).conn = st.conn := by
  unfold save_resume_pointer; split <;> rfl

theorem save_resume_pointer_sessions (st : Store) (a b c : String) :
    (save_resume_pointer st a b c).sessions = st.sessions := by
  unfold save_resume_pointer; split <;> rfl

theorem save_resume_pointer_aliases (st : Store) (a b c : String) :
    (save_resume_pointer st a b c).aliases = st.aliases := by
  unfold save_resume_pointer; split <;> rfl

theorem save_resume_pointer_liveCalls (st : Store) (a b c : String) :
    (save_resume_pointer st a b c).liveCalls = st.liveCalls := by
  unfold save_resume_pointer; split <;> rfl

theorem save_resume_pointer_ptrs_eq (st : Store) (a b c : String)
    (hconn : st.conn = true) (ha : a ≠ "") (hb : b ≠ "") (hc : c ≠ "") :
    (save_resume_pointer st a b c).resumePtrs =
      fun k => if k = (a, b) then some c else st.resumePtrs k := by
  simp [save_resume_pointer, hconn, ha, hb, hc]

theorem clear_resume_pointer_conn (st : Store) (a b : String) :
    (clear_resume_pointer st a b).conn = st.conn := by
  unfold clear_resume_pointer; split <;> rfl

theorem clear_resume_pointer_sessions (st : Store) (a b : String) :
    (clear_resume_pointer st a b).sessions = st.sessions := by
  unfold clear_resume_pointer; split <;> rfl

theorem clear_resume_pointer_aliases (st : Store) (a b : String) :
    (clear_resume_pointer st a b).aliases = st.aliases := by
  unfold clear_resume_pointer; split <;> rfl

theorem clear_resume_pointer_liveCalls (st : Store) (a b : String) :
    (clear_resume_pointer st a b).liveCalls = st.liveCalls := by
  unfold clear_resume_pointer; split <;> rfl

theorem clear_resume_pointer_ptrs_eq (st : Store) (a b : String)
    (hconn : st.conn = true) :
    (clear_resume_pointer st a b).resumePtrs =
      fun k => if k = (a, b) then none else st.resumePtrs k := by
  simp [clear_resume_pointer, hconn]

theorem register_live_call_conn (st : Store) (a b : String) :
    (register_live_call st a b).conn = st.conn := by
  unfold register_live_call; split <;> rfl

theorem register_live_call_sessions (st : Store) (a b : String) :
    (register_live_call st a b).sessions = st.sessions := by
  unfold register_live_call; split <;> rfl

theorem register_live_call_aliases (st : Store) (a b : String) :
    (register_live_call st a b).aliases = st.aliases := by
  unfold register_live_call; split <;> rfl

theorem register_live_call_resumePtrs (st : Store) (a b : String) :
    (register_live_call st a b).resumePtrs = st.resumePtrs := by
  unfold register_live_call; split <;> rfl

theorem unregister_live_call_conn (st : Store) (a b : String) :
    (unregister_live_call st a b).conn = st.conn := by
  unfold unregister_live_call; split <;> rfl

theorem unregister_live_call_sessions (st : Store) (a b : String) :
    (unregister_live_call st a b).sessions = st.sessions := by
  unfold unregister_live_call; split <;> rfl

theorem unregister_live_call_aliases (st : Store) (a b : String) :
    (unregister_live_call st a b).aliases = st.aliases := by
  unfold unregister_live_call; split <;> rfl

theorem unregister_live_call_resumePtrs (st : Store) (a b : String) :
    (unregister_live_call st a b).resumePtrs = st.resumePtrs := by
  unfold unregister_live_call; split <;> rfl

/-- A sid removed by `unregister_live_call` is no longer a member of the
contractor's live set (when the guard passes). -/
theorem unregister_live_call_not_mem (st : Store) (k sid : String)
    (hconn : st.conn = true) (hk : k ≠ "") (hsid : sid ≠ "") :
    sid ∉ (unregister_live_call st k sid).liveCalls k := by
  simp [unregister_live_call, hconn, hk, hsid, List.mem_filter]

theorem get_resume_pointer_ne_empty (st : Store) (a b p : String)
    (h : get_resume_pointer st a b = some p) : p ≠ "" := by
  unfold get_resume_pointer at h
  split at h
  · cases hv : st.resumePtrs (a, b) with
    | none => rw [hv] at h; exact absurd h (by simp)
    | some v =>
      rw [hv] at h
      by_cases hve : v = ""
      · simp [hve] at h
      · simp [hve] at h; subst h; exact hve
  · exact absurd h (by simp)

theorem get_call_alias_ne_empty (st : Store) (a v : String)
    (h : get_call_alias st a = some v) : v ≠ "" := by
  unfold get_call_alias at h
  split at h
  · cases hv : st.aliases a with
    | none => rw [hv] at h; exact absurd h (by simp)
    | some w =>
      rw [hv] at h
      by_cases hwe : w = ""
      · simp [hwe] at h
      · simp [hwe] at h; subst h; exact hwe
  · exact absurd h (by simp)

-- ======== characterizations of identity resolution ========

/-- A fresh-leg (`step=0`) turn whose resume pointer names a different sid
swaps to it and writes the alias. -/
theorem resolve_swap_ptr (st : Store) (t : Turn) (p : String)
    (hstep : t.step = 0) (hconn : st.conn = true)
    (hto : pyStrip t.to_number ≠ "") (hfrom : pyStrip t.from_number ≠ "")
    (hptr : get_resume_pointer st (pyStrip t.to_number) (pyStrip t.from_number) = some p)
    (hne : p ≠ t.call_sid) :
    resolve_swap st t = (set_call_alias st t.call_sid p, p) := by
  simp [resolve_swap, hstep, hconn, hto, hfrom, hptr, hne]

/-- A turn with no stored alias and no resume pointer keeps its own sid. -/
theorem resolve_swap_fresh (st : Store) (t : Turn)
    (halias : get_call_alias st t.call_sid = none)
    (hptr : get_resume_pointer st (pyStrip t.to_number) (pyStrip t.from_number) = none) :
    resolve_swap st t = (st, t.call_sid) := by
  simp [resolve_swap, halias, hptr, ite_self]

/-- A non-fresh-leg turn (`step ≠ 0`) never consults the resume pointer:
the canonical sid is the single-hop alias target (or the turn's own sid). -/
theorem resolve_swap_nonzero (st : Store) (t : Turn) (hstep : t.step ≠ 0) :
    resolve_swap st t = (st, (get_call_alias st t.call_sid).getD t.call_sid) := by
  cases halias : get_call_alias st t.call_sid <;>
    simp [resolve_swap, hstep, halias]

/-- A fresh-leg (`step=0`) turn whose resume pointer names the turn's own
sid takes the no-swap branch: the canonical sid is the single-hop alias
target (or the turn's own sid). -/
theorem resolve_swap_ptr_self (st : Store) (t : Turn)
    (hptr : (if t.step = 0 ∧ st.conn ∧ pyStrip t.to_number ≠ "" ∧ pyStrip t.from_number ≠ ""
             then get_resume_pointer st (pyStrip t.to_number) (pyStrip t.from_number)
             else none) = some t.call_sid) :
    resolve_swap st t = (st, (get_call_alias st t.call_sid).getD t.call_sid) := by
  cases halias : get_call_alias st t.call_sid <;>
    simp [resolve_swap, hptr, halias]

/-- The canonical sid is the swap's sid. -/
theorem resolve_turn_sid (st : Store) (t : Turn) :
    (resolve_turn st t).sid = (resolve_swap st t).2 := rfl

/-- The swap writes at most an alias: every other keyspace and `conn` are
untouched. -/
theorem resolve_swap_store_others (st : Store) (t : Turn) :
    (resolve_swap st t).1.conn = st.conn ∧
    (resolve_swap st t).1.sessions = st.sessions ∧
    (resolve_swap st t).1.resumePtrs = st.resumePtrs ∧
    (resolve_swap st t).1.liveCalls = st.liveCalls := by
  refine ⟨?_, ?_, ?_, ?_⟩ <;>
  · simp only [resolve_swap]
    repeat' split
    all_goals
      simp [set_call_alias_conn, set_call_alias_sessions, set_call_alias_resumePtrs,
        set_call_alias_liveCalls]

/-- `resolve_turn` only performs `set_state` writes after the swap, so the
alias / resume-pointer / live-call keyspaces and `conn` are those of the
swap's store. -/
theorem resolve_turn_store_others (st : Store) (t : Turn) :
    (resolve_turn st t).store.aliases = (resolve_swap st t).1.aliases ∧
    (resolve_turn st t).store.resumePtrs = (resolve_swap st t).1.resumePtrs ∧
    (resolve_turn st t).store.liveCalls = (resolve_swap st t).1.liveCalls ∧
    (resolve_turn st t).store.conn = (resolve_swap st t).1.conn := by
  refine ⟨?_, ?_, ?_, ?_⟩ <;>
  · simp only [resolve_turn]
    repeat' split
    all_goals
      simp [set_state_aliases, set_state_resumePtrs, set_state_liveCalls, set_state_conn]

/-- When the swap's store is connected, holds a session for the canonical
sid, and the sid is non-empty, `resolve_turn` loads that session, applies
the callback fill-in, and (on a `step=0` request) overrides the step with
the field-inferred one. -/
theorem resolve_turn_loaded (st : Store) (t : Turn) (st1 : Store) (c : String)
    (s : Session) (hsw : resolve_swap st t = (st1, c)) (hconn1 : st1.conn = true)
    (hc : c ≠ "") (hsess : st1.sessions c = some s) :
    resolve_turn st t =
      (let state1 := { s with
        call_sid := c,
        callback := if s.callback ≠ "" then s.callback else t.from_number }
       let inferred := resume_step_from_fields state1
       if t.step = 0 ∧ inferred > 0 then
         ⟨set_state (set_state st1 c { state1 with step := inferred }) c
            { state1 with step := inferred }, c, { state1 with step := inferred }, inferred⟩
       else ⟨set_state st1 c state1, c, state1, t.step⟩) := by
  simp only [resolve_turn, hsw, get_state, hconn1, hc]
  simp only [hsess]
  repeat' split
  all_goals first | rfl | simp_all

/-- The field-inferred step is 2 exactly when name and address are
(strip-)non-empty and the job description strips to empty. -/
theorem resume_step_from_fields_eq_two (s : Session)
    (hname : pyStrip s.name ≠ "") (haddr : pyStrip s.service_address ≠ "")
    (hjob : pyStrip s.job_description = "") :
    resume_step_from_fields s = 2 := by
  simp [resume_step_from_fields, hname, haddr, hjob]

/-- Core of C1: whenever the swap produced a connected store holding a
session whose name and address are set but whose job description is empty,
a `step=0` request is re-dispatched at step 2 and the stored step becomes
2, whatever it was before. -/
theorem resolve_dispatches_step2 (st : Store) (t : Turn) (st1 : Store)
    (c : String) (s : Session)
    (hsw : resolve_swap st t = (st1, c)) (hconn1 : st1.conn = true) (hc : c ≠ "")
    (hsess : st1.sessions c = some s) (hstep : t.step = 0)
    (hname : pyStrip s.name ≠ "") (haddr : pyStrip s.service_address ≠ "")
    (hjob : pyStrip s.job_description = "") :
    (resolve_turn st t).rstep = 2 ∧
    (resolve_turn st t).session.step = 2 ∧
    (resolve_turn st t).store.sessions (resolve_turn st t).sid =
      some (resolve_turn st t).session := by
  have hload := resolve_turn_loaded st t st1 c s hsw hconn1 hc hsess
  have hinf : resume_step_from_fields
      { s with
        call_sid := c,
        callback := if s.callback ≠ "" then s.callback else t.from_number } = 2 :=
    resume_step_from_fields_eq_two _ hname haddr hjob
  rw [hload]
  simp only [hinf, hstep]
  have hconn2 : (set_state st1 c
      { s with
        call_sid := c, step := 2,
        callback := if s.callback ≠ "" then s.callback else t.from_number }).conn = true := by
    rw [set_state_conn]; exact hconn1
  refine ⟨by simp, by simp, ?_⟩
  simp only [show (0 : Nat) < 2 by norm_num, and_true, if_true, reduceIte]
  rw [set_state_sessions_eq _ _ _ hconn2 hc]
  simp

/-- C1: a turn arriving with request step 0, whose canonical session has
`name` and `service_address` non-empty but `job_description` empty, while
a resume pointer exists for the (called, caller) pair, is processed at
step 2 — the first-empty-field inferred step — regardless of the value
stored in the session's `step` field (`s.step` is arbitrary here). -/
theorem c1_resume_infers_step2 (st : Store) (t : Turn) (p : String) (s : Session)
    (hconn : st.conn = true) (hstep : t.step = 0) (hsid : t.call_sid ≠ "")
    (hto : pyStrip t.to_number ≠ "") (hfrom : pyStrip t.from_number ≠ "")
    (hptr : get_resume_pointer st (pyStrip t.to_number) (pyStrip t.from_number) = some p)
    (hsess : st.sessions (resolve_turn st t).sid = some s)
    (hname : pyStrip s.name ≠ "") (haddr : pyStrip s.service_address ≠ "")
    (hjob : pyStrip s.job_description = "") :
    (resolve_turn st t).rstep = 2 ∧
    (resolve_turn st t).session.step = 2 ∧
    (resolve_turn st t).store.sessions (resolve_turn st t).sid =
      some (resolve_turn st t).session := by
  by_cases hne : p = t.call_sid
  · subst hne
    have hsw := resolve_swap_ptr_self st t (by simp [hstep, hconn, hto, hfrom, hptr])
    have hcsid : (resolve_turn st t).sid = (get_call_alias st t.call_sid).getD t.call_sid := by
      rw [resolve_turn_sid, hsw]
    have hc : (get_call_alias st t.call_sid).getD t.call_sid ≠ "" := by
      cases halias : get_call_alias st t.call_sid with
      | none => simpa using hsid
      | some v => simpa using get_call_alias_ne_empty st t.call_sid v halias
    exact resolve_dispatches_step2 st t st _ s hsw hconn hc
      (by rw [← hcsid]; exact hsess) hstep hname haddr hjob
  · have hsw := resolve_swap_ptr st t p hstep hconn hto hfrom hptr hne
    have hcsid : (resolve_turn st t).sid = p := by rw [resolve_turn_sid, hsw]
    have hpne : p ≠ "" := get_resume_pointer_ne_empty st _ _ p hptr
    refine resolve_dispatches_step2 st t (set_call_alias st t.call_sid p) p s hsw ?_ hpne
      ?_ hstep hname haddr hjob
    · rw [set_call_alias_conn]; exact hconn
    · rw [set_call_alias_sessions]
      rw [← hcsid]; exact hsess

/-- C3: a step-4 turn with a usable callback value (digits or speech
present; shorter-than-7 values fall back to the caller id, so any
non-empty input completes) ends with all three close-out postconditions —
the canonical CallSession deleted, the ResumePointer for the
(called, caller) pair cleared, and the canonical sid removed from the
contractor's LiveCallSet — for every value of `crm` (the flag modelling
`send_intake_summary` raising), since the completion collaborators'
failure is caught. -/
theorem c3_completion_closeout (st : Store) (t : Turn) (s : Session) (k : String)
    (hconn : st.conn = true) (hstep : t.step = 4)
    (hto : pyStrip t.to_number ≠ "") (hfrom : pyStrip t.from_number ≠ "")
    (hc : (resolve_turn st t).sid ≠ "")
    (hsess : st.sessions (resolve_turn st t).sid = some s)
    (hck : s.contractor_key = some k) (hkne : k ≠ "")
    (hval : pyStrip t.digits ≠ "" ∨ pyStrip t.speech ≠ "") :
    ∀ crm : Bool,
      ((voice_process st t crm).1).sessions (resolve_turn st t).sid = none ∧
      ((voice_process st t crm).1).resumePtrs (pyStrip t.to_number, pyStrip t.from_number) = none ∧
      (resolve_turn st t).sid ∉ ((voice_process st t crm).1).liveCalls k := by
  intro crm
  have hne0 : t.step ≠ 0 := by rw [hstep]; omega
  have hsw : resolve_swap st t = (st, (get_call_alias st t.call_sid).getD t.call_sid) :=
    resolve_swap_nonzero st t hne0
  have hcsid : (resolve_turn st t).sid = (get_call_alias st t.call_sid).getD t.call_sid := by
    rw [resolve_turn_sid, hsw]
  rw [hcsid] at hc hsess
  have hload := resolve_turn_loaded st t st _ s hsw hconn hc hsess
  rw [hstep] at hload
  simp only [show ¬((4:Nat) = 0 ∧
      0 < resume_step_from_fields { s with
        call_sid := (get_call_alias st t.call_sid).getD t.call_sid,
        callback := if s.callback ≠ "" then s.callback else t.from_number }) by simp,
    if_neg, reduceIte] at hload
  rw [hcsid]
  -- dispatch at step 4
  have hrstep : (resolve_turn st t).rstep = 4 := by rw [hload]
  simp only [voice_process, hrstep, hload]
  norm_num only []
  -- the step-4 handler with a usable callback value
  set c := (get_call_alias st t.call_sid).getD t.call_sid with hcdef
  set s1 : Session := { s with
    call_sid := c,
    callback := if s.callback ≠ "" then s.callback else t.from_number } with hs1
  have hvalne : pyStrip (if pyStrip t.digits ≠ "" then pyStrip t.digits else pyStrip t.speech) ≠ "" := by
    rcases hval with h | h
    · simp [h, pyStrip_idem]
    · by_cases hd : pyStrip t.digits = "" <;> simp [hd, pyStrip_idem, h]
  simp only [step4_run, hvalne, reduceIte, ite_self]
  set cb := if (digitsOnly (pyStrip (if pyStrip t.digits ≠ "" then pyStrip t.digits
      else pyStrip t.speech))).length < 7 then pyStrip t.from_number
    else digitsOnly (pyStrip (if pyStrip t.digits ≠ "" then pyStrip t.digits
      else pyStrip t.speech)) with hcb
  set base := set_state (set_state st c s1) c { s1 with callback := cb } with hbase
  have hbconn : base.conn = true := by
    rw [hbase, set_state_conn, set_state_conn]; exact hconn
  set withPtr := save_resume_pointer base (pyStrip t.to_number) (pyStrip t.from_number) c
    with hwp
  have hwpconn : withPtr.conn = true := by rw [hwp, save_resume_pointer_conn]; exact hbconn
  simp only [hwpconn, hto, hfrom, true_and, and_true, and_self, if_true, reduceIte,
    ne_eq, not_false_eq_true]
  set cleared := clear_resume_pointer withPtr (pyStrip t.to_number) (pyStrip t.from_number)
    with hclr
  have hclrconn : cleared.conn = true := by rw [hclr, clear_resume_pointer_conn]; exact hwpconn
  have hkey : ({ s1 with callback := cb } : Session).contractor_key.getD "unknown" = k := by
    simp [hs1, hck]
  rw [hkey]
  set unreg := unregister_live_call cleared k c with hunreg
  have hunconn : unreg.conn = true := by rw [hunreg, unregister_live_call_conn]; exact hclrconn
  refine ⟨?_, ?_, ?_⟩
  · rw [clear_state_sessions_eq _ _ hunconn hc]
    simp
  · rw [clear_state_resumePtrs, hunreg, unregister_live_call_resumePtrs, hclr,
      clear_resume_pointer_ptrs_eq _ _ _ hwpconn]
    simp
  · rw [clear_state_liveCalls, hunreg]
    exact unregister_live_call_not_mem cleared k c hclrconn hkne hc

/-- C2: alias resolution is single-hop.  First conjunct: the canonical sid
a turn resolves to is always the turn's own sid, the direct alias target,
or the resume pointer's target — one lookup, never a chain.  Second
conjunct (the claim's scenario): if `b` already aliases to `a` and a new
sid arrives at step 0 while the pointer still names `a`, the new sid is
aliased directly to `a` — never to `b` — `b`'s entry still maps to `a`,
and the turn is processed under `a`.  No hypothesis constrains
`st.aliases a`, so the resolution does not follow a second hop even if
`a` itself has an alias entry. -/
theorem c2_alias_single_hop :
    (∀ (st : Store) (t : Turn),
      (resolve_swap st t).2 = t.call_sid ∨
      (∃ v, get_call_alias st t.call_sid = some v ∧ (resolve_swap st t).2 = v) ∨
      (∃ p, get_resume_pointer st (pyStrip t.to_number) (pyStrip t.from_number) = some p ∧
        (resolve_swap st t).2 = p)) ∧
    (∀ (st : Store) (t : Turn) (a b : String),
      st.conn = true → t.step = 0 → t.call_sid ≠ "" →
      pyStrip t.to_number ≠ "" → pyStrip t.from_number ≠ "" →
      get_resume_pointer st (pyStrip t.to_number) (pyStrip t.from_number) = some a →
      st.aliases b = some a → b ≠ a → a ≠ t.call_sid →
      (resolve_turn st t).store.aliases t.call_sid = some a ∧
      (resolve_turn st t).store.aliases t.call_sid ≠ some b ∧
      (resolve_turn st t).store.aliases b = some a ∧
      (resolve_turn st t).sid = a) := by
  constructor
  · intro st t
    simp only [resolve_swap]
    rcases hold : (if t.step = 0 ∧ st.conn ∧ pyStrip t.to_number ≠ "" ∧ pyStrip t.from_number ≠ ""
        then get_resume_pointer st (pyStrip t.to_number) (pyStrip t.from_number)
        else none) with _ | p
    · cases halias : get_call_alias st t.call_sid with
      | none => left; simp [halias]
      | some v => right; left; exact ⟨v, rfl, by simp [halias]⟩
    · have hp : get_resume_pointer st (pyStrip t.to_number) (pyStrip t.from_number) = some p := by
        by_cases hg : t.step = 0 ∧ st.conn ∧ pyStrip t.to_number ≠ "" ∧ pyStrip t.from_number ≠ ""
        · rw [if_pos hg] at hold; exact hold
        · rw [if_neg hg] at hold; exact absurd hold (by simp)
      by_cases hne : p = t.call_sid
      · subst hne
        cases halias : get_call_alias st t.call_sid with
        | none => left; simp [halias]
        | some v => right; left; exact ⟨v, rfl, by simp [halias]⟩
      · right; right
        exact ⟨p, hp, by simp [hne]⟩
  · intro st t a b hconn hstep hsid hto hfrom hptr halias_b hba hac
    have hane : a ≠ "" := get_resume_pointer_ne_empty st _ _ a hptr
    have hsw := resolve_swap_ptr st t a hstep hconn hto hfrom hptr hac
    have hali := (resolve_turn_store_others st t).1
    rw [hsw] at hali
    rw [hali, set_call_alias_aliases_eq st t.call_sid a hconn hsid hane]
    refine ⟨by simp, by simp [(Ne.symm hba : a ≠ b)], ?_, by rw [resolve_turn_sid, hsw]⟩
    by_cases hbsid : b = t.call_sid
    · simp [hbsid]
    · simp [hbsid, halias_b]

/-- C9 (amended): on explicit restart — press 2 at the resume-choice
prompt — the handler clears the ResumePointer for the (called, caller)
pair and redirects to a fresh intake, but it does NOT delete the abandoned
conversation's CallSession: the whole session keyspace is untouched (the
abandoned session is left to expire via its TTL). -/
theorem c9_restart_clears_pointer_only (st : Store)
    (new_call_sid digits_raw to_raw from_raw old_call_sid : String) (n : Nat)
    (hdig : pyStrip digits_raw = "2") :
    (resume_choice st new_call_sid digits_raw to_raw from_raw old_call_sid n).1.sessions
      = st.sessions ∧
    (resume_choice st new_call_sid digits_raw to_raw from_raw old_call_sid n).2
      = Resp.restartIntake ∧
    (st.conn = true → pyStrip to_raw ≠ "" → pyStrip from_raw ≠ "" →
      (resume_choice st new_call_sid digits_raw to_raw from_raw old_call_sid n).1.resumePtrs
        (pyStrip to_raw, pyStrip from_raw) = none) := by
  simp only [resume_choice, hdig]
  rw [if_neg (by decide : ¬("2":String) = "")]
  rw [if_pos (rfl : ("2":String) = "2")]
  refine ⟨?_, ?_, ?_⟩
  · split
    · rw [clear_resume_pointer_sessions]
    · rfl
  · rfl
  · intro hconn hto hfrom
    rw [if_pos ⟨hconn, hto, hfrom⟩]
    rw [clear_resume_pointer_ptrs_eq _ _ _ hconn]
    simp

theorem get_call_alias_of_none (st : Store) (a : String) (h : st.aliases a = none) :
    get_call_alias st a = none := by
  simp [get_call_alias, h]

theorem get_resume_pointer_of_none (st : Store) (a b : String)
    (h : st.resumePtrs (a, b) = none) : get_resume_pointer st a b = none := by
  simp [get_resume_pointer, h]

/-- Evaluating a step-2 turn whose sid is unaliased: the turn dispatches
to the step-2 handler on the loaded session. -/
theorem voice_process_step2_eval (st : Store) (t : Turn) (crm : Bool) (s : Session)
    (hconn : st.conn = true) (hstep : t.step = 2)
    (halias : st.aliases t.call_sid = none) (hsid : t.call_sid ≠ "")
    (hsess : st.sessions t.call_sid = some s) :
    voice_process st t crm =
      step2_run
        (set_state st t.call_sid { s with
          call_sid := t.call_sid,
          callback := if s.callback ≠ "" then s.callback else t.from_number })
        t.call_sid
        { s with
          call_sid := t.call_sid,
          callback := if s.callback ≠ "" then s.callback else t.from_number }
        (pyStrip t.digits) (pyStrip t.speech) (pyStrip t.to_number) (pyStrip t.from_number) := by
  have hne0 : t.step ≠ 0 := by rw [hstep]; omega
  have hsw : resolve_swap st t = (st, t.call_sid) := by
    rw [resolve_swap_nonzero st t hne0, get_call_alias_of_none st _ halias]
    rfl
  have hload := resolve_turn_loaded st t st t.call_sid s hsw hconn hsid hsess
  rw [hstep] at hload
  simp only [show ∀ m : Nat, ¬((2:Nat) = 0 ∧ 0 < m) from fun m h => by omega, if_neg,
    reduceIte, false_and] at hload
  simp only [voice_process, hload, hstep]
  norm_num

/-- The step-2 handler on an empty job description with speech present:
save the description, stay on step 2, ask for confirmation. -/
theorem step2_run_speech (st : Store) (c : String) (s : Session)
    (digits speech to_number from_number : String)
    (hjob : s.job_description = "") (hsp : speech ≠ "") :
    step2_run st c s digits speech to_number from_number =
      (save_resume_pointer
        (set_state st c { s with job_description := pyStrip speech, step := 2 })
        to_number from_number c,
       Resp.confirmJob (pyStrip speech)) := by
  simp [step2_run, hjob, hsp]

/-- The step-2 handler at the confirmation prompt with a press-2: pop the
job description, leave the stored step alone. -/
theorem step2_run_press2 (st : Store) (c : String) (s : Session)
    (digits speech to_number from_number : String)
    (hjob : s.job_description ≠ "") (hdig : digits = "2") :
    step2_run st c s digits speech to_number from_number =
      (set_state st c { s with job_description := "" }, Resp.repeatJob) := by
  subst hdig
  simp [step2_run, hjob]

/-- A spoken job description at step 2 saves the description and stays at
step 2 (waiting for the confirm digit). -/
theorem step2_speech_saves (sid d to_raw from_raw : String) (crm : Bool)
    (st : Store) (s : Session) (hsid : sid ≠ "") (hd : pyStrip d ≠ "")
    (hconn : st.conn = true) (halias : st.aliases sid = none)
    (hsess : st.sessions sid = some s) (hjob : s.job_description = "") :
    ∃ s2 : Session,
      (voice_process st
        { call_sid := sid, step := 2, digits := "", speech := d,
          to_number := to_raw, from_number := from_raw } crm).1.conn = true ∧
      (voice_process st
        { call_sid := sid, step := 2, digits := "", speech := d,
          to_number := to_raw, from_number := from_raw } crm).1.aliases sid = none ∧
      (voice_process st
        { call_sid := sid, step := 2, digits := "", speech := d,
          to_number := to_raw, from_number := from_raw } crm).1.sessions sid = some s2 ∧
      s2.job_description ≠ "" ∧ s2.step = 2 := by
  rw [voice_process_step2_eval _ _ crm s hconn rfl halias hsid hsess]
  dsimp only
  have hjob1 : ({ s with
      call_sid := sid,
      callback := if s.callback ≠ "" then s.callback else from_raw } : Session).job_description
      = "" := hjob
  rw [step2_run_speech _ _ _ _ _ _ _ hjob1 hd]
  dsimp only
  have hconn3 : (set_state st sid { s with
      call_sid := sid,
      callback := if s.callback ≠ "" then s.callback else from_raw }).conn = true := by
    rw [set_state_conn]; exact hconn
  refine ⟨{ s with
      call_sid := sid,
      callback := if s.callback ≠ "" then s.callback else from_raw,
      job_description := pyStrip (pyStrip d), step := 2 }, ?_, ?_, ?_, ?_, ?_⟩
  · rw [save_resume_pointer_conn, set_state_conn]
    exact hconn3
  · rw [save_resume_pointer_aliases, set_state_aliases, set_state_aliases]
    exact halias
  · rw [save_resume_pointer_sessions, set_state_sessions_eq _ _ _ hconn3 hsid]
    simp
  · show pyStrip (pyStrip d) ≠ ""
    simpa [pyStrip_idem] using hd
  · rfl

/-- A press-2 at the step-2 confirmation prompt pops the description and
returns the session to the waiting configuration. -/
theorem step2_press2_returns (sid to_raw from_raw : String) (crm : Bool)
    (st : Store) (s : Session) (hsid : sid ≠ "")
    (hconn : st.conn = true) (halias : st.aliases sid = none)
    (hsess : st.sessions sid = some s) (hjob : s.job_description ≠ "")
    (hstep : s.step = 2) :
    step2_waiting sid
      ((voice_process st
        { call_sid := sid, step := 2, digits := "2", speech := "",
          to_number := to_raw, from_number := from_raw } crm).1) := by
  rw [voice_process_step2_eval _ _ crm s hconn rfl halias hsid hsess]
  dsimp only
  have hjob1 : ({ s with
      call_sid := sid,
      callback := if s.callback ≠ "" then s.callback else from_raw } : Session).job_description
      ≠ "" := hjob
  rw [step2_run_press2 _ _ _ _ _ _ _ hjob1 (by decide : pyStrip "2" = "2")]
  dsimp only
  have hconn3 : (set_state st sid { s with
      call_sid := sid,
      callback := if s.callback ≠ "" then s.callback else from_raw }).conn = true := by
    rw [set_state_conn]; exact hconn
  refine ⟨?_, ?_, { s with
      call_sid := sid,
      callback := if s.callback ≠ "" then s.callback else from_raw,
      job_description := "" }, ?_, ?_, ?_⟩
  · rw [set_state_conn]
    exact hconn3
  · rw [set_state_aliases, set_state_aliases]
    exact halias
  · rw [set_state_sessions_eq _ _ _ hconn3 hsid]
    simp
  · rfl
  · exact hstep

/-- The remaining step-2 branches: no usable input re-prompts without a
write; press-1 moves to step 3; any other key re-prompts. -/
theorem step2_run_other_branches (st : Store) (c : String) (s : Session)
    (digits speech to_number from_number : String) :
    (s.job_description = "" → speech = "" →
      step2_run st c s digits speech to_number from_number = (st, Resp.askJob)) ∧
    (s.job_description ≠ "" → digits = "" →
      step2_run st c s digits speech to_number from_number = (st, Resp.askJobConfirmDigits)) ∧
    (s.job_description ≠ "" → digits = "1" →
      step2_run st c s digits speech to_number from_number =
        (save_resume_pointer (set_state st c { s with step := 3, retries := 0 })
          to_number from_number c, Resp.confirmedJob)) ∧
    (s.job_description ≠ "" → digits ≠ "" → digits ≠ "2" → digits ≠ "1" →
      step2_run st c s digits speech to_number from_number = (st, Resp.repromptConfirm2)) := by
  refine ⟨?_, ?_, ?_, ?_⟩
  · intro hjob hsp
    simp [step2_run, hjob, hsp]
  · intro hjob hdig
    simp [step2_run, hjob, hdig]
  · intro hjob hdig
    subst hdig
    simp [step2_run, hjob]
  · intro hjob hd0 hd2 hd1
    simp [step2_run, hjob, hd0, hd2, hd1]

/-- Evaluating a step-2 turn in general: the canonical sid is the
single-hop alias target (or the turn's own sid) and the turn dispatches to
the step-2 handler on the loaded session. -/
theorem voice_process_step2_eval_alias (st : Store) (t : Turn) (crm : Bool) (s : Session)
    (hconn : st.conn = true) (hstep : t.step = 2)
    (hc : (get_call_alias st t.call_sid).getD t.call_sid ≠ "")
    (hsess : st.sessions ((get_call_alias st t.call_sid).getD t.call_sid) = some s) :
    voice_process st t crm =
      step2_run
        (set_state st ((get_call_alias st t.call_sid).getD t.call_sid) { s with
          call_sid := (get_call_alias st t.call_sid).getD t.call_sid,
          callback := if s.callback ≠ "" then s.callback else t.from_number })
        ((get_call_alias st t.call_sid).getD t.call_sid)
        { s with
          call_sid := (get_call_alias st t.call_sid).getD t.call_sid,
          callback := if s.callback ≠ "" then s.callback else t.from_number }
        (pyStrip t.digits) (pyStrip t.speech) (pyStrip t.to_number) (pyStrip t.from_number) := by
  have hne0 : t.step ≠ 0 := by rw [hstep]; omega
  have hsw := resolve_swap_nonzero st t hne0
  have hload := resolve_turn_loaded st t st _ s hsw hconn hc hsess
  rw [hstep] at hload
  simp only [show ∀ m : Nat, ¬((2:Nat) = 0 ∧ 0 < m) from fun m h => by omega, if_neg,
    reduceIte, false_and] at hload
  simp only [voice_process, hload, hstep]
  norm_num

/-- One speak-then-press-2 round at step 2 returns the session to the
waiting configuration: job description empty again, stored step still 2 —
no counter is incremented and nothing is auto-accepted. -/
theorem job_repeat_cycle_preserves (sid d to_raw from_raw : String) (crm : Bool)
    (st : Store) (hsid : sid ≠ "") (hd : pyStrip d ≠ "")
    (h : step2_waiting sid st) :
    step2_waiting sid (job_repeat_cycle sid d to_raw from_raw crm st) := by
  obtain ⟨hconn, halias, s, hsess, hjob, _⟩ := h
  obtain ⟨s2, hconnA, haliasA, hsessA, hjobA, hstepA⟩ :=
    step2_speech_saves sid d to_raw from_raw crm st s hsid hd hconn halias hsess hjob
  exact step2_press2_returns sid to_raw from_raw crm _ s2 hsid hconnA haliasA hsessA
    hjobA hstepA

/-- C8: the step-2 job-description protocol never auto-accepts.  First
conjunct: a step-2 turn can only move the stored step to 3 when it was
already 3 or the caller pressed 1 at the confirmation prompt.  Second
conjunct: any number of speak-then-press-2 repeat rounds leaves the
session waiting at step 2 with an empty job description — there is no
attempt counter and no cap, unlike step 0. -/
theorem c8_step2_requires_press1 :
    (∀ (st : Store) (t : Turn) (crm : Bool) (s s2 : Session),
      st.conn = true → t.step = 2 →
      (resolve_turn st t).sid ≠ "" →
      st.sessions (resolve_turn st t).sid = some s →
      ((voice_process st t crm).1).sessions (resolve_turn st t).sid = some s2 →
      s2.step = 3 → s.step = 3 ∨ pyStrip t.digits = "1") ∧
    (∀ (sid d to_raw from_raw : String) (crm : Bool) (st : Store) (n : Nat),
      sid ≠ "" → pyStrip d ≠ "" → step2_waiting sid st →
      step2_waiting sid ((job_repeat_cycle sid d to_raw from_raw crm)^[n] st)) := by
  constructor
  · intro st t crm s s2 hconn hstep hc hsess hpost h3
    have hne0 : t.step ≠ 0 := by rw [hstep]; omega
    have hcsid : (resolve_turn st t).sid = (get_call_alias st t.call_sid).getD t.call_sid := by
      rw [resolve_turn_sid, resolve_swap_nonzero st t hne0]
    rw [hcsid] at hc hsess hpost
    rw [voice_process_step2_eval_alias st t crm s hconn hstep hc hsess] at hpost
    set c := (get_call_alias st t.call_sid).getD t.call_sid with hcdef
    set s1 : Session := { s with
      call_sid := c,
      callback := if s.callback ≠ "" then s.callback else t.from_number } with hs1
    have hconn3 : (set_state st c s1).conn = true := by rw [set_state_conn]; exact hconn
    have hsess3 : (set_state st c s1).sessions c = some s1 := by
      rw [set_state_sessions_eq _ _ _ hconn hc]
      simp
    by_cases hjob : s1.job_description = ""
    · by_cases hsp : pyStrip t.speech = ""
      · rw [(step2_run_other_branches _ _ _ _ _ _ _).1 hjob hsp] at hpost
        dsimp only at hpost
        rw [hsess3] at hpost
        left
        have : s1 = s2 := Option.some.inj hpost
        rw [← this] at h3
        exact h3
      · rw [step2_run_speech _ _ _ _ _ _ _ hjob hsp] at hpost
        dsimp only at hpost
        rw [save_resume_pointer_sessions, set_state_sessions_eq _ _ _ hconn3 hc] at hpost
        simp only [if_pos rfl, reduceIte] at hpost
        have hs2 : ({ s1 with job_description := pyStrip (pyStrip t.speech), step := 2 }
            : Session) = s2 := by
          simpa using hpost
        rw [← hs2] at h3
        exact absurd h3 (by simp)
    · by_cases hd0 : pyStrip t.digits = ""
      · rw [(step2_run_other_branches _ _ _ _ _ _ _).2.1 hjob hd0] at hpost
        dsimp only at hpost
        rw [hsess3] at hpost
        left
        have : s1 = s2 := Option.some.inj hpost
        rw [← this] at h3
        exact h3
      · by_cases hd2 : pyStrip t.digits = "2"
        · rw [step2_run_press2 _ _ _ _ _ _ _ hjob hd2] at hpost
          dsimp only at hpost
          rw [set_state_sessions_eq _ _ _ hconn3 hc] at hpost
          simp only [if_pos rfl, reduceIte] at hpost
          have hs2 : ({ s1 with job_description := "" } : Session) = s2 := by
            simpa using hpost
          left
          rw [← hs2] at h3
          exact h3
        · by_cases hd1 : pyStrip t.digits = "1"
          · right; exact hd1
          · rw [(step2_run_other_branches _ _ _ _ _ _ _).2.2.2 hjob hd0 hd2 hd1] at hpost
            dsimp only at hpost
            rw [hsess3] at hpost
            left
            have : s1 = s2 := Option.some.inj hpost
            rw [← this] at h3
            exact h3
  · intro sid d to_raw from_raw crm st n hsid hd h
    induction n with
    | zero => simpa using h
    | succ m ih =>
      rw [Function.iterate_succ_apply']
      exact job_repeat_cycle_preserves sid d to_raw from_raw crm _ hsid hd ih

/-- Evaluating a fresh-resolve step-0 turn (no alias, no resume pointer,
name still empty so no step inference): dispatch to the step-0 handler on
the loaded session. -/
theorem voice_process_step0_eval (st : Store) (t : Turn) (crm : Bool) (s : Session)
    (hconn : st.conn = true) (hstep : t.step = 0) (hsid : t.call_sid ≠ "")
    (halias : st.aliases t.call_sid = none)
    (hptr : st.resumePtrs (pyStrip t.to_number, pyStrip t.from_number) = none)
    (hsess : st.sessions t.call_sid = some s) (hname : pyStrip s.name = "") :
    voice_process st t crm =
      step0_run
        (set_state st t.call_sid { s with
          call_sid := t.call_sid,
          callback := if s.callback ≠ "" then s.callback else t.from_number })
        t.call_sid
        { s with
          call_sid := t.call_sid,
          callback := if s.callback ≠ "" then s.callback else t.from_number }
        (pyStrip t.digits) (pyStrip t.speech) (pyStrip t.to_number) (pyStrip t.from_number) := by
  have hsw : resolve_swap st t = (st, t.call_sid) :=
    resolve_swap_fresh st t (get_call_alias_of_none st _ halias)
      (get_resume_pointer_of_none st _ _ hptr)
  have hload := resolve_turn_loaded st t st t.call_sid s hsw hconn hsid hsess
  have hinf : resume_step_from_fields { s with
      call_sid := t.call_sid,
      callback := if s.callback ≠ "" then s.callback else t.from_number } = 0 := by
    simp [resume_step_from_fields, hname]
  simp only [hinf, show ¬(t.step = 0 ∧ (0:Nat) > 0) from fun h => by omega, if_neg,
    reduceIte, and_false] at hload
  rw [hstep] at hload
  simp only [voice_process, hload, hstep]
  norm_num

/-- The step-0 branches used by the retry-cap analysis: storing a spoken
candidate, a press-2 under the cap, and a press-2 at the cap. -/
theorem step0_run_branches (st : Store) (c : String) (s : Session)
    (digits speech to_number from_number : String) :
    (pyStrip s.name_candidate = "" → speech ≠ "" →
      step0_run st c s digits speech to_number from_number =
        (set_state st c { s with name_candidate := pyStrip speech },
         Resp.confirmName (pyStrip speech))) ∧
    (pyStrip s.name_candidate ≠ "" → speech = "" → digits = "2" → s.name_attempts = 0 →
      step0_run st c s digits speech to_number from_number =
        (set_state st c { s with name_attempts := 1, name_candidate := "" },
         Resp.repeatName)) ∧
    (pyStrip s.name_candidate ≠ "" → speech = "" → digits = "2" → s.name_attempts = 1 →
      step0_run st c s digits speech to_number from_number =
        (save_resume_pointer
          (set_state st c { s with
            name := pyStrip s.name_candidate, name_confirmed := some false,
            name_attempts := 0, name_candidate := "", step := 1, retries := 0 })
          to_number from_number c,
         Resp.acceptUnconfirmed)) := by
  refine ⟨?_, ?_, ?_⟩
  · intro hcand hsp
    simp [step0_run, hcand, hsp]
  · intro hcand hsp hdig hatt
    subst hdig
    simp [step0_run, hcand, hsp, hatt]
  · intro hcand hsp hdig hatt
    subst hdig
    simp [step0_run, hcand, hsp, hatt]

/-- A press-2 at the step-0 confirm prompt with `name_attempts = 0` (under
the cap): no auto-accept — the name stays as it was, the stored step is
unchanged, the attempt counter becomes 1 and the candidate is discarded. -/
theorem step0_press2_under_cap (sid to_raw from_raw : String) (crm : Bool)
    (st : Store) (s : Session) (hconn : st.conn = true) (hsid : sid ≠ "")
    (halias : st.aliases sid = none)
    (hptr : st.resumePtrs (pyStrip to_raw, pyStrip from_raw) = none)
    (hsess : st.sessions sid = some s) (hname : pyStrip s.name = "")
    (hcand : pyStrip s.name_candidate ≠ "") (hatt : s.name_attempts = 0) :
    ∃ s1 : Session,
      (voice_process st
        { call_sid := sid, step := 0, digits := "2", speech := "",
          to_number := to_raw, from_number := from_raw } crm).1.conn = true ∧
      (voice_process st
        { call_sid := sid, step := 0, digits := "2", speech := "",
          to_number := to_raw, from_number := from_raw } crm).1.aliases sid = none ∧
      (voice_process st
        { call_sid := sid, step := 0, digits := "2", speech := "",
          to_number := to_raw, from_number := from_raw } crm).1.resumePtrs
        (pyStrip to_raw, pyStrip from_raw) = none ∧
      (voice_process st
        { call_sid := sid, step := 0, digits := "2", speech := "",
          to_number := to_raw, from_number := from_raw } crm).1.sessions sid = some s1 ∧
      s1.name = s.name ∧ s1.step = s.step ∧ s1.name_attempts = 1 ∧
      s1.name_candidate = "" ∧ s1.callback = (if s.callback ≠ "" then s.callback else from_raw) := by
  rw [voice_process_step0_eval st _ crm s hconn rfl hsid halias hptr hsess hname]
  dsimp only
  rw [(step0_run_branches _ _ _ _ _ _ _).2.1
    (show pyStrip ({ s with
      call_sid := sid,
      callback := if s.callback ≠ "" then s.callback else from_raw } : Session).name_candidate
      ≠ "" from hcand)
    (show pyStrip "" = "" from by decide) (show pyStrip "2" = "2" from by decide)
    (show ({ s with
      call_sid := sid,
      callback := if s.callback ≠ "" then s.callback else from_raw } : Session).name_attempts
      = 0 from hatt)]
  dsimp only
  have hconnA : (set_state st sid { s with
      call_sid := sid,
      callback := if s.callback ≠ "" then s.callback else from_raw }).conn = true := by
    rw [set_state_conn]; exact hconn
  refine ⟨{ s with
      call_sid := sid,
      callback := if s.callback ≠ "" then s.callback else from_raw,
      name_attempts := 1, name_candidate := "" }, ?_, ?_, ?_, ?_, rfl, rfl, rfl, rfl, rfl⟩
  · rw [set_state_conn]; exact hconnA
  · rw [set_state_aliases, set_state_aliases]; exact halias
  · rw [set_state_resumePtrs, set_state_resumePtrs]; exact hptr
  · rw [set_state_sessions_eq _ _ _ hconnA hsid]
    simp

/-- A spoken candidate at step 0 when none is stored: the candidate is
recorded, nothing else changes. -/
theorem step0_speech_stores (sid to_raw from_raw c2 : String) (crm : Bool)
    (st : Store) (s : Session) (hconn : st.conn = true) (hsid : sid ≠ "")
    (halias : st.aliases sid = none)
    (hptr : st.resumePtrs (pyStrip to_raw, pyStrip from_raw) = none)
    (hsess : st.sessions sid = some s) (hname : pyStrip s.name = "")
    (hcand : s.name_candidate = "") (hc2 : pyStrip c2 ≠ "") :
    ∃ s2 : Session,
      (voice_process st
        { call_sid := sid, step := 0, digits := "", speech := c2,
          to_number := to_raw, from_number := from_raw } crm).1.conn = true ∧
      (voice_process st
        { call_sid := sid, step := 0, digits := "", speech := c2,
          to_number := to_raw, from_number := from_raw } crm).1.aliases sid = none ∧
      (voice_process st
        { call_sid := sid, step := 0, digits := "", speech := c2,
          to_number := to_raw, from_number := from_raw } crm).1.resumePtrs
        (pyStrip to_raw, pyStrip from_raw) = none ∧
      (voice_process st
        { call_sid := sid, step := 0, digits := "", speech := c2,
          to_number := to_raw, from_number := from_raw } crm).1.sessions sid = some s2 ∧
      s2.name = s.name ∧ s2.step = s.step ∧ s2.name_attempts = s.name_attempts ∧
      s2.name_candidate = pyStrip (pyStrip c2) := by
  rw [voice_process_step0_eval st _ crm s hconn rfl hsid halias hptr hsess hname]
  dsimp only
  rw [(step0_run_branches _ _ _ _ _ _ _).1
    (show pyStrip ({ s with
      call_sid := sid,
      callback := if s.callback ≠ "" then s.callback else from_raw } : Session).name_candidate
      = "" from by rw [show ({ s with
        call_sid := sid,
        callback := if s.callback ≠ "" then s.callback else from_raw } : Session).name_candidate
        = s.name_candidate from rfl, hcand]; decide) hc2]
  dsimp only
  have hconnA : (set_state st sid { s with
      call_sid := sid,
      callback := if s.callback ≠ "" then s.callback else from_raw }).conn = true := by
    rw [set_state_conn]; exact hconn
  refine ⟨{ s with
      call_sid := sid,
      callback := if s.callback ≠ "" then s.callback else from_raw,
      name_candidate := pyStrip (pyStrip c2) }, ?_, ?_, ?_, ?_, rfl, rfl, rfl, rfl⟩
  · rw [set_state_conn]; exact hconnA
  · rw [set_state_aliases, set_state_aliases]; exact halias
  · rw [set_state_resumePtrs, set_state_resumePtrs]; exact hptr
  · rw [set_state_sessions_eq _ _ _ hconnA hsid]
    simp

/-- A press-2 at the step-0 confirm prompt with `name_attempts = 1` (at
the cap): the stored candidate is accepted unconfirmed and the session
advances to step 1. -/
theorem step0_press2_at_cap (sid to_raw from_raw : String) (crm : Bool)
    (st : Store) (s : Session) (hconn : st.conn = true) (hsid : sid ≠ "")
    (halias : st.aliases sid = none)
    (hptr : st.resumePtrs (pyStrip to_raw, pyStrip from_raw) = none)
    (hsess : st.sessions sid = some s) (hname : pyStrip s.name = "")
    (hcand : pyStrip s.name_candidate ≠ "") (hatt : s.name_attempts = 1) :
    ∃ s3 : Session,
      (voice_process st
        { call_sid := sid, step := 0, digits := "2", speech := "",
          to_number := to_raw, from_number := from_raw } crm).1.sessions sid = some s3 ∧
      s3.name = pyStrip s.name_candidate ∧ s3.name_confirmed = some false ∧
      s3.step = 1 ∧ s3.name_attempts = 0 ∧ s3.name_candidate = "" := by
  rw [voice_process_step0_eval st _ crm s hconn rfl hsid halias hptr hsess hname]
  dsimp only
  rw [(step0_run_branches _ _ _ _ _ _ _).2.2
    (show pyStrip ({ s with
      call_sid := sid,
      callback := if s.callback ≠ "" then s.callback else from_raw } : Session).name_candidate
      ≠ "" from hcand)
    (show pyStrip "" = "" from by decide) (show pyStrip "2" = "2" from by decide)
    (show ({ s with
      call_sid := sid,
      callback := if s.callback ≠ "" then s.callback else from_raw } : Session).name_attempts
      = 1 from hatt)]
  dsimp only
  have hconnA : (set_state st sid { s with
      call_sid := sid,
      callback := if s.callback ≠ "" then s.callback else from_raw }).conn = true := by
    rw [set_state_conn]; exact hconn
  refine ⟨{ s with
      call_sid := sid,
      callback := if s.callback ≠ "" then s.callback else from_raw,
      name := pyStrip s.name_candidate, name_confirmed := some false,
      name_attempts := 0, name_candidate := "", step := 1, retries := 0 },
    ?_, rfl, rfl, rfl, rfl, rfl⟩
  rw [save_resume_pointer_sessions, set_state_sessions_eq _ _ _ hconnA hsid]
  simp

/-- C4: the step-0 retry cap.  Starting from a session at step 0 with
`name_attempts = 0` and a stored spoken candidate, the first "repeat"
press (digit 2) never auto-accepts: the name stays empty and the session
stays at its step with the attempt counter at 1.  After the caller speaks
a new candidate `c2`, the second "repeat" press reaches the cap of 2: the
machine accepts the last spoken candidate unconfirmed (`name` set to the
stripped `c2`, `name_confirmed = false`) and advances the session to
step 1. -/
theorem c4_retry_cap (st : Store) (sid to_raw from_raw c2 : String) (crm : Bool)
    (s : Session)
    (hconn : st.conn = true) (hsid : sid ≠ "")
    (halias : st.aliases sid = none)
    (hptr : st.resumePtrs (pyStrip to_raw, pyStrip from_raw) = none)
    (hsess : st.sessions sid = some s)
    (hname : s.name = "") (hstep0 : s.step = 0)
    (hcand : pyStrip s.name_candidate ≠ "") (hatt : s.name_attempts = 0)
    (hc2 : pyStrip c2 ≠ "") :
    (((voice_process st
        { call_sid := sid, step := 0, digits := "2", speech := "",
          to_number := to_raw, from_number := from_raw } crm).1).sessions sid).map
        (fun s1 => (s1.name, s1.step, s1.name_attempts, s1.name_candidate))
      = some ("", 0, 1, "") ∧
    (((voice_process
        ((voice_process
          ((voice_process st
            { call_sid := sid, step := 0, digits := "2", speech := "",
              to_number := to_raw, from_number := from_raw } crm).1)
          { call_sid := sid, step := 0, digits := "", speech := c2,
            to_number := to_raw, from_number := from_raw } crm).1)
        { call_sid := sid, step := 0, digits := "2", speech := "",
          to_number := to_raw, from_number := from_raw } crm).1).sessions sid).map
        (fun s3 => (s3.name, s3.name_confirmed, s3.step, s3.name_attempts))
      = some (pyStrip c2, some false, 1, 0) := by
  have hpname : pyStrip s.name = "" := by rw [hname]; decide
  obtain ⟨s1, hconn1, halias1, hptr1, hsess1, h1name, h1step, h1att, h1cand, _⟩ :=
    step0_press2_under_cap sid to_raw from_raw crm st s hconn hsid halias hptr hsess
      hpname hcand hatt
  have h1pname : pyStrip s1.name = "" := by rw [h1name, hname]; decide
  obtain ⟨s2, hconn2, halias2, hptr2, hsess2, h2name, h2step, h2att, h2cand⟩ :=
    step0_speech_stores sid to_raw from_raw c2 crm _ s1 hconn1 hsid halias1 hptr1 hsess1
      h1pname h1cand hc2
  have h2pname : pyStrip s2.name = "" := by rw [h2name, h1name, hname]; decide
  have h2pcand : pyStrip s2.name_candidate ≠ "" := by
    rw [h2cand]
    simpa [pyStrip_idem] using hc2
  have h2att1 : s2.name_attempts = 1 := by rw [h2att, h1att]
  obtain ⟨s3, hsess3, h3name, h3conf, h3step, h3att, _⟩ :=
    step0_press2_at_cap sid to_raw from_raw crm _ s2 hconn2 hsid halias2 hptr2 hsess2
      h2pname h2pcand h2att1
  constructor
  · rw [hsess1]
    simp [h1name, hname, h1step, hstep0, h1att, h1cand]
  · rw [hsess3]
    simp [h3name, h2cand, pyStrip_idem, h3conf, h3step, h3att]

-- ======== field monotonicity infrastructure ========

theorem set_state_sessions_self (st : Store) (c : String) (r : Session) :
    (set_state st c r).sessions c = if st.conn = true ∧ c ≠ "" then some r
      else st.sessions c := by
  unfold set_state
  split <;> simp_all

theorem clear_state_sessions_self (st : Store) (c : String) :
    (clear_state st c).sessions c = if st.conn = true ∧ c ≠ "" then none
      else st.sessions c := by
  unfold clear_state
  split <;> simp_all

/-- The assembled composite address contains a comma, so it never strips
to the empty string. -/
theorem pyStrip_assembled_ne (a b c d : String) :
    pyStrip (a ++ " " ++ b ++ ", " ++ c ++ " " ++ d) ≠ "" := by
  unfold pyStrip
  intro h
  have hl : stripL isPySpace (a ++ " " ++ b ++ ", " ++ c ++ " " ++ d).data = [] := by
    have := congrArg String.data h
    simpa using this
  have hmem : (',' : Char) ∈ (a ++ " " ++ b ++ ", " ++ c ++ " " ++ d).data := by
    simp only [String.data_append]
    simp [List.mem_append]
  exact stripL_ne_nil_of_mem isPySpace _ ',' hmem (by decide) hl

/-- The step-1 handler never clears the collected fields: the name, job
description, timing and callback are passed through unchanged, and the
service address, once (strip-)non-empty, stays non-empty (the Done branch
reassembles it from the sub-fields, and the composite always contains a
comma). -/
theorem step1_run_keeps (st : Store) (c : String) (s : Session)
    (digits speech to_number from_number : String) (s' : Session)
    (hconn : st.conn = true) (hsess : st.sessions c = some s)
    (hpost : ((step1_run st c s digits speech to_number from_number).1).sessions c
      = some s') :
    s'.name = s.name ∧
    (pyStrip s.service_address ≠ "" → pyStrip s'.service_address ≠ "") ∧
    s'.job_description = s.job_description ∧ s'.timing = s.timing ∧
    s'.callback = s.callback := by
  simp only [step1_run] at hpost
  repeat' split at hpost
  all_goals
    simp only [save_resume_pointer_sessions, set_state_sessions_self, hconn, hsess,
      true_and] at hpost
  all_goals
    try (split at hpost)
  all_goals
    obtain rfl : _ = s' := Option.some.inj hpost
  all_goals
    refine ⟨rfl, ?_, rfl, rfl, rfl⟩
  all_goals
    try (intro h; exact h)
  all_goals
    intro h
    exact pyStrip_assembled_ne _ _ _ _

/-- The step-0 handler touches only the name machinery (name, candidate,
attempt counter, confirmation flag, step, retries): address, job,
timing and callback pass through unchanged. -/
theorem step0_run_keeps (st : Store) (c : String) (s : Session)
    (digits speech to_number from_number : String) (s' : Session)
    (hconn : st.conn = true) (hsess : st.sessions c = some s)
    (hpost : ((step0_run st c s digits speech to_number from_number).1).sessions c
      = some s') :
    s'.service_address = s.service_address ∧
    s'.job_description = s.job_description ∧ s'.timing = s.timing ∧
    s'.callback = s.callback := by
  simp only [step0_run] at hpost
  repeat' split at hpost
  all_goals
    simp only [save_resume_pointer_sessions, set_state_sessions_self, hconn, hsess,
      true_and] at hpost
  all_goals
    try (split at hpost)
  all_goals
    obtain rfl : _ = s' := Option.some.inj hpost
  all_goals
    exact ⟨rfl, rfl, rfl, rfl⟩

/-- The step-2 handler, on any turn that is not a press-2 repeat, never
clears an existing job description, and passes name, address, timing and
callback through unchanged. -/
theorem step2_run_keeps (st : Store) (c : String) (s : Session)
    (digits speech to_number from_number : String) (s' : Session)
    (hconn : st.conn = true) (hsess : st.sessions c = some s)
    (hpost : ((step2_run st c s digits speech to_number from_number).1).sessions c
      = some s') :
    s'.name = s.name ∧ s'.service_address = s.service_address ∧
    (digits ≠ "2" → s.job_description ≠ "" → s'.job_description = s.job_description) ∧
    s'.timing = s.timing ∧ s'.callback = s.callback := by
  simp only [step2_run] at hpost
  repeat' split at hpost
  all_goals
    simp only [save_resume_pointer_sessions, set_state_sessions_self, hconn, hsess,
      true_and] at hpost
  all_goals
    try (split at hpost)
  all_goals
    obtain rfl : _ = s' := Option.some.inj hpost
  all_goals
    refine ⟨rfl, rfl, ?_, rfl, rfl⟩
  all_goals
    intro hd h
  all_goals
    first
      | rfl
      | exact absurd (by assumption : s.job_description = "") h
      | exact absurd (by assumption : digits = "2") hd

/-- The step-3 handler (timing): name, address, job and callback pass
through unchanged, and a non-empty timing stays non-empty (it is only
ever overwritten by the freshly stripped non-empty speech). -/
theorem step3_run_keeps (st : Store) (c : String) (s : Session)
    (speech to_number from_number : String) (s' : Session)
    (hconn : st.conn = true) (hsess : st.sessions c = some s)
    (hnorm : pyStrip speech = speech)
    (hpost : ((step3_run st c s speech to_number from_number).1).sessions c
      = some s') :
    s'.name = s.name ∧ s'.service_address = s.service_address ∧
    s'.job_description = s.job_description ∧
    (pyStrip s.timing ≠ "" → pyStrip s'.timing ≠ "") ∧
    s'.callback = s.callback := by
  simp only [step3_run] at hpost
  repeat' split at hpost
  all_goals
    simp only [save_resume_pointer_sessions, set_state_sessions_self, hconn, hsess,
      true_and] at hpost
  all_goals
    try (split at hpost)
  all_goals
    obtain rfl : _ = s' := Option.some.inj hpost
  all_goals
    refine ⟨rfl, rfl, rfl, ?_, rfl⟩
  all_goals
    intro h
  all_goals
    first
      | exact h
      | · show pyStrip (pyStrip speech) ≠ ""
          rw [pyStrip_idem, hnorm]
          assumption

/-- The step-4 handler either leaves the session untouched (re-prompt) or
deletes it entirely; when the session still exists afterwards, every
collected field is unchanged. -/
theorem step4_run_keeps (st : Store) (c : String) (s : Session)
    (digits speech to_number from_number from_raw : String) (crm : Bool) (s' : Session)
    (hconn : st.conn = true) (hsess : st.sessions c = some s)
    (hpost : ((step4_run st c s digits speech to_number from_number from_raw crm).1).sessions c
      = some s') :
    s'.name = s.name ∧ s'.service_address = s.service_address ∧
    s'.job_description = s.job_description ∧ s'.timing = s.timing ∧
    s'.callback = s.callback := by
  simp only [step4_run, ite_self] at hpost
  repeat' split at hpost
  all_goals
    simp only [clear_state_sessions_self, unregister_live_call_conn,
      clear_resume_pointer_conn, save_resume_pointer_conn, set_state_conn, hconn,
      unregister_live_call_sessions, clear_resume_pointer_sessions,
      save_resume_pointer_sessions, set_state_sessions_self, hsess, true_and] at hpost
  all_goals
    try (split at hpost)
  all_goals
    first
      | exact Option.noConfusion hpost
      | (obtain rfl : _ = s' := Option.some.inj hpost
         exact ⟨rfl, rfl, rfl, rfl, rfl⟩)

theorem pyStrip_ne_imp (x : String) (h : pyStrip x ≠ "") : x ≠ "" := by
  intro he
  subst he
  exact h (by decide)

theorem resume_step_zero_name (s : Session) (h : resume_step_from_fields s = 0) :
    pyStrip s.name = "" := by
  unfold resume_step_from_fields at h
  repeat' split at h
  all_goals simp_all

theorem set_state_sessions_keep (st : Store) (sid : String) (s : Session) (k : String)
    (h : k ≠ sid ∨ sid = "") : (set_state st sid s).sessions k = st.sessions k := by
  unfold set_state
  split
  · rcases h with h | h
    · simp [h]
    · simp_all
  · rfl

theorem clear_state_sessions_keep (st : Store) (sid : String) (k : String)
    (h : k ≠ sid ∨ sid = "") : (clear_state st sid).sessions k = st.sessions k := by
  unfold clear_state
  split
  · rcases h with h | h
    · simp [h]
    · simp_all
  · rfl

/-- The step handlers write sessions only at the canonical sid: every
other key (and every key when the sid is empty, since the store helpers
are no-ops then) is untouched. -/
theorem step_runs_sessions_keep (st : Store) (c : String) (s : Session)
    (digits speech to_number from_number from_raw : String) (crm : Bool) (k : String)
    (hk : k ≠ c ∨ c = "") :
    ((step0_run st c s digits speech to_number from_number).1).sessions k = st.sessions k ∧
    ((step1_run st c s digits speech to_number from_number).1).sessions k = st.sessions k ∧
    ((step2_run st c s digits speech to_number from_number).1).sessions k = st.sessions k ∧
    ((step3_run st c s speech to_number from_number).1).sessions k = st.sessions k ∧
    ((step4_run st c s digits speech to_number from_number from_raw crm).1).sessions k
      = st.sessions k := by
  refine ⟨?_, ?_, ?_, ?_, ?_⟩ <;>
  · simp only [step0_run, step1_run, step2_run, step3_run, step4_run, ite_self]
    repeat' split
    all_goals
      simp [save_resume_pointer_sessions, clear_resume_pointer_sessions,
        unregister_live_call_sessions, set_state_sessions_keep _ _ _ _ hk,
        clear_state_sessions_keep _ _ _ hk]

/-- Identity resolution writes sessions only at the canonical sid. -/
theorem resolve_turn_sessions_keep (st : Store) (t : Turn) (k : String)
    (hk : k ≠ (resolve_swap st t).2 ∨ (resolve_swap st t).2 = "") :
    (resolve_turn st t).store.sessions k = st.sessions k := by
  simp only [resolve_turn]
  repeat' split
  all_goals
    simp [set_state_sessions_keep _ _ _ _ hk, (resolve_swap_store_others st t).2.1]

/-- `/voice-process` writes sessions only at the canonical sid. -/
theorem voice_process_sessions_keep (st : Store) (t : Turn) (crm : Bool) (k : String)
    (hk : k ≠ (resolve_swap st t).2 ∨ (resolve_swap st t).2 = "") :
    ((voice_process st t crm).1).sessions k = st.sessions k := by
  have hr := resolve_turn_sessions_keep st t k hk
  have hsid : (resolve_turn st t).sid = (resolve_swap st t).2 := resolve_turn_sid st t
  have hks := step_runs_sessions_keep (resolve_turn st t).store (resolve_turn st t).sid
    (resolve_turn st t).session (pyStrip t.digits) (pyStrip t.speech)
    (pyStrip t.to_number) (pyStrip t.from_number) t.from_number crm k (hsid ▸ hk)
  simp only [voice_process]
  split
  · rw [hks.1, hr]
  split
  · rw [hks.2.1, hr]
  split
  · rw [hks.2.2.1, hr]
  split
  · rw [hks.2.2.2.1, hr]
  split
  · rw [hks.2.2.2.2, hr]
  · exact hr

/-- With the client down, a `/voice-process` turn leaves the store
untouched. -/
theorem voice_process_store_disconnected (st : Store) (t : Turn) (crm : Bool)
    (h : st.conn = false) : (voice_process st t crm).1 = st := by
  have hres := resolve_turn_disconnected st t h
  have hrun := step_runs_disconnected st t.call_sid
    { call_sid := t.call_sid, callback := t.from_number }
    (pyStrip t.digits) (pyStrip t.speech) (pyStrip t.to_number) (pyStrip t.from_number)
    t.from_number crm h
  simp only [voice_process, hres]
  rcases eq_or_ne t.step 0 with h0 | h0
  · simpa [h0] using hrun.1
  rcases eq_or_ne t.step 1 with h1 | h1
  · simpa [h0, h1] using hrun.2.1
  rcases eq_or_ne t.step 2 with h2 | h2
  · simpa [h0, h1, h2] using hrun.2.2.1
  rcases eq_or_ne t.step 3 with h3 | h3
  · simpa [h0, h1, h2, h3] using hrun.2.2.2.1
  rcases eq_or_ne t.step 4 with h4 | h4
  · simpa [h0, h1, h2, h3, h4] using hrun.2.2.2.2
  simp [h0, h1, h2, h3, h4]

/-- Dispatch-level field preservation: whatever step a turn dispatches to,
a session still present afterwards keeps its collected fields, with the
two claimed exceptions (step-0 name work only happens when the name is
still unset; a press-2 can clear the job description). -/
theorem dispatch_keeps (stD : Store) (cc : String) (sIn : Session) (rstep : Nat)
    (digits speech to_number from_number from_raw : String) (crm : Bool) (s' : Session)
    (hconnD : stD.conn = true) (hsessD : stD.sessions cc = some sIn)
    (hnorm : pyStrip speech = speech)
    (hname0 : rstep = 0 → pyStrip sIn.name = "")
    (hpost : ((if rstep = 0 then step0_run stD cc sIn digits speech to_number from_number
      else if rstep = 1 then step1_run stD cc sIn digits speech to_number from_number
      else if rstep = 2 then step2_run stD cc sIn digits speech to_number from_number
      else if rstep = 3 then step3_run stD cc sIn speech to_number from_number
      else if rstep = 4 then
        step4_run stD cc sIn digits speech to_number from_number from_raw crm
      else (stD, Resp.noResponse)).1).sessions cc = some s') :
    (pyStrip sIn.name ≠ "" → s'.name = sIn.name) ∧
    (pyStrip sIn.service_address ≠ "" → pyStrip s'.service_address ≠ "") ∧
    (digits ≠ "2" → sIn.job_description ≠ "" →
      s'.job_description = sIn.job_description) ∧
    (pyStrip sIn.timing ≠ "" → pyStrip s'.timing ≠ "") ∧
    s'.callback = sIn.callback := by
  split at hpost
  · have h0 := hname0 (by assumption)
    obtain ⟨ha, hb, hc', hd⟩ :=
      step0_run_keeps stD cc sIn digits speech to_number from_number s' hconnD hsessD hpost
    exact ⟨fun hn => absurd h0 hn, fun hsa => by rw [ha]; exact hsa, fun _ _ => hb,
      fun ht => by rw [hc']; exact ht, hd⟩
  split at hpost
  · obtain ⟨ha, hb, hc', hd, he⟩ :=
      step1_run_keeps stD cc sIn digits speech to_number from_number s' hconnD hsessD hpost
    exact ⟨fun _ => ha, hb, fun _ _ => hc', fun ht => by rw [hd]; exact ht, he⟩
  split at hpost
  · obtain ⟨ha, hb, hc', hd, he⟩ :=
      step2_run_keeps stD cc sIn digits speech to_number from_number s' hconnD hsessD hpost
    exact ⟨fun _ => ha, fun hsa => by rw [hb]; exact hsa, hc',
      fun ht => by rw [hd]; exact ht, he⟩
  split at hpost
  · obtain ⟨ha, hb, hc', hd, he⟩ :=
      step3_run_keeps stD cc sIn speech to_number from_number s' hconnD hsessD hnorm hpost
    exact ⟨fun _ => ha, fun hsa => by rw [hb]; exact hsa, fun _ _ => hc', hd, he⟩
  split at hpost
  · obtain ⟨ha, hb, hc', hd, he⟩ :=
      step4_run_keeps stD cc sIn digits speech to_number from_number from_raw crm s'
        hconnD hsessD hpost
    exact ⟨fun _ => ha, fun hsa => by rw [hb]; exact hsa, fun _ _ => hc',
      fun ht => by rw [hd]; exact ht, he⟩
  · rw [hsessD] at hpost
    obtain rfl : sIn = s' := Option.some.inj hpost
    exact ⟨fun _ => rfl, fun h => h, fun _ _ => rfl, fun h => h, rfl⟩

/-- Packaging of a connected turn on its canonical session: the turn is
exactly a dispatch over some step on some store/session pair whose
collected fields agree with the stored session (callback possibly filled
in from the caller id), and a step-0 dispatch only happens while the name
is still unset. -/
theorem voice_process_main_eval (st : Store) (t : Turn) (crm : Bool) (s : Session)
    (hconn : st.conn = true) (hcne : (resolve_swap st t).2 ≠ "")
    (hpre : st.sessions (resolve_swap st t).2 = some s) :
    ∃ (stD : Store) (sIn : Session) (rstep : Nat),
      voice_process st t crm =
        (if rstep = 0 then
          step0_run stD (resolve_swap st t).2 sIn (pyStrip t.digits) (pyStrip t.speech)
            (pyStrip t.to_number) (pyStrip t.from_number)
        else if rstep = 1 then
          step1_run stD (resolve_swap st t).2 sIn (pyStrip t.digits) (pyStrip t.speech)
            (pyStrip t.to_number) (pyStrip t.from_number)
        else if rstep = 2 then
          step2_run stD (resolve_swap st t).2 sIn (pyStrip t.digits) (pyStrip t.speech)
            (pyStrip t.to_number) (pyStrip t.from_number)
        else if rstep = 3 then
          step3_run stD (resolve_swap st t).2 sIn (pyStrip t.speech)
            (pyStrip t.to_number) (pyStrip t.from_number)
        else if rstep = 4 then
          step4_run stD (resolve_swap st t).2 sIn (pyStrip t.digits) (pyStrip t.speech)
            (pyStrip t.to_number) (pyStrip t.from_number) t.from_number crm
        else (stD, Resp.noResponse)) ∧
      stD.conn = true ∧ stD.sessions (resolve_swap st t).2 = some sIn ∧
      sIn.name = s.name ∧ sIn.service_address = s.service_address ∧
      sIn.job_description = s.job_description ∧ sIn.timing = s.timing ∧
      sIn.callback = (if s.callback ≠ "" then s.callback else t.from_number) ∧
      (rstep = 0 → pyStrip sIn.name = "") := by
  have hconn1 : (resolve_swap st t).1.conn = true := by
    rw [(resolve_swap_store_others st t).1]; exact hconn
  have hsess1 : (resolve_swap st t).1.sessions (resolve_swap st t).2 = some s := by
    rw [(resolve_swap_store_others st t).2.1]; exact hpre
  have hload := resolve_turn_loaded st t (resolve_swap st t).1 (resolve_swap st t).2 s
    rfl hconn1 hcne hsess1
  set S1 : Session := { s with
    call_sid := (resolve_swap st t).2,
    callback := if s.callback ≠ "" then s.callback else t.from_number } with hS1
  by_cases hC : t.step = 0 ∧ 0 < resume_step_from_fields S1
  · rw [if_pos hC] at hload
    refine ⟨set_state (set_state (resolve_swap st t).1 (resolve_swap st t).2
        { S1 with step := resume_step_from_fields S1 }) (resolve_swap st t).2
        { S1 with step := resume_step_from_fields S1 },
      { S1 with step := resume_step_from_fields S1 },
      resume_step_from_fields S1,
      ?_, ?_, ?_, rfl, rfl, rfl, rfl, rfl,
      fun h0 => absurd (h0 ▸ hC.2) (lt_irrefl 0)⟩
    · simp only [voice_process, hload]
    · rw [set_state_conn, set_state_conn]; exact hconn1
    · rw [set_state_sessions_self,
        if_pos ⟨by rw [set_state_conn]; exact hconn1, hcne⟩]
  · rw [if_neg hC] at hload
    refine ⟨set_state (resolve_swap st t).1 (resolve_swap st t).2 S1, S1, t.step,
      ?_, ?_, ?_, rfl, rfl, rfl, rfl, rfl, fun h0 => ?_⟩
    · simp only [voice_process, hload]
    · rw [set_state_conn]; exact hconn1
    · rw [set_state_sessions_self, if_pos ⟨hconn1, hcne⟩]
    · refine resume_step_zero_name _ ?_
      rcases Nat.eq_zero_or_pos (resume_step_from_fields S1) with hz | hp
      · exact hz
      · exact absurd ⟨h0, hp⟩ hC

/-- Core field-preservation property of a `/voice-process` turn: for any
session still present in the store after the turn, (i) a (strip-)non-empty
name is never changed, (ii) a non-empty service address never becomes
empty, (iii) a non-empty job description is unchanged unless the turn
carries a press-2 repeat, (iv) a non-empty timing never becomes empty,
and (v) a non-empty callback is never changed. -/
theorem voice_process_keeps_fields (st : Store) (t : Turn) (crm : Bool) (sid : String)
    (s s' : Session)
    (hpre : st.sessions sid = some s)
    (hpost : ((voice_process st t crm).1).sessions sid = some s') :
    (pyStrip s.name ≠ "" → s'.name = s.name) ∧
    (pyStrip s.service_address ≠ "" → pyStrip s'.service_address ≠ "") ∧
    (pyStrip t.digits ≠ "2" → pyStrip s.job_description ≠ "" →
      s'.job_description = s.job_description) ∧
    (pyStrip s.timing ≠ "" → pyStrip s'.timing ≠ "") ∧
    (pyStrip s.callback ≠ "" → s'.callback = s.callback) := by
  by_cases hconn : st.conn = true
  swap
  · have hb : st.conn = false := by revert hconn; cases st.conn <;> simp
    rw [voice_process_store_disconnected st t crm hb, hpre] at hpost
    obtain rfl : s = s' := Option.some.inj hpost
    exact ⟨fun _ => rfl, fun h => h, fun _ _ => rfl, fun h => h, fun _ => rfl⟩
  by_cases hkc : sid ≠ (resolve_swap st t).2 ∨ (resolve_swap st t).2 = ""
  · rw [voice_process_sessions_keep st t crm sid hkc, hpre] at hpost
    obtain rfl : s = s' := Option.some.inj hpost
    exact ⟨fun _ => rfl, fun h => h, fun _ _ => rfl, fun h => h, fun _ => rfl⟩
  push_neg at hkc
  obtain ⟨heq, hcne⟩ := hkc
  subst heq
  obtain ⟨stD, sIn, rstep, hvp, hconnD, hsessD, hn, hsa, hj, hti, hcb, hname0⟩ :=
    voice_process_main_eval st t crm s hconn hcne hpre
  rw [hvp] at hpost
  have hdk := dispatch_keeps stD (resolve_swap st t).2 sIn rstep
    (pyStrip t.digits) (pyStrip t.speech) (pyStrip t.to_number) (pyStrip t.from_number)
    t.from_number crm s' hconnD hsessD (pyStrip_idem _) hname0 hpost
  refine ⟨?_, ?_, ?_, ?_, ?_⟩
  · intro h
    rw [hdk.1 (by rw [hn]; exact h), hn]
  · intro h
    exact hdk.2.1 (by rw [hsa]; exact h)
  · intro hd h
    rw [hdk.2.2.1 hd (by rw [hj]; exact pyStrip_ne_imp _ h), hj]
  · intro h
    exact hdk.2.2.2.1 (by rw [hti]; exact h)
  · intro h
    rw [hdk.2.2.2.2, hcb, if_pos (pyStrip_ne_imp _ h)]

/-- C7 (amended): field monotonicity.  A single `/voice-process` turn
never clears a confirmed (non-empty) collected field of a session that is
still stored afterwards — the name and callback keep their exact values,
the service address and timing stay non-empty, and the job description is
unchanged unless the turn itself is an explicit press-2 repeat (the only
clearing action).  The stored `step` value, by contrast, is NOT monotone
under redelivered stale turns (see the counterexample), so the amended
claim asserts monotonicity of the fields only. -/
theorem c7_field_monotonicity (st : Store) (t : Turn) (crm : Bool) (sid : String)
    (s s' : Session)
    (hpre : st.sessions sid = some s)
    (hpost : ((voice_process st t crm).1).sessions sid = some s') :
    (pyStrip s.name ≠ "" → s'.name = s.name) ∧
    (pyStrip s.service_address ≠ "" → pyStrip s'.service_address ≠ "") ∧
    (pyStrip t.digits ≠ "2" → pyStrip s.job_description ≠ "" →
      s'.job_description = s.job_description) ∧
    (pyStrip s.timing ≠ "" → pyStrip s'.timing ≠ "") ∧
    (pyStrip s.callback ≠ "" → s'.callback = s.callback) :=
  voice_process_keeps_fields st t crm sid s s' hpre hpost

/-- C5 (amended): idempotent redelivery holds only for the collected
fields, not for the full session state.  Replaying the same turn once more
never clears or changes a collected field that was non-empty after the
first processing (name and callback keep their values; address and timing
stay non-empty; the job description survives unless the replayed turn is
itself a press-2 repeat).  Full state equality and response-class equality
fail — a silent step-3 turn increments the retry counter on each delivery
(see the counterexample). -/
theorem c5_replay_keeps_fields (st : Store) (t : Turn) (crm : Bool) (sid : String)
    (s1 s2 : Session)
    (h1 : ((voice_process st t crm).1).sessions sid = some s1)
    (h2 : ((voice_process (voice_process st t crm).1 t crm).1).sessions sid = some s2) :
    (pyStrip s1.name ≠ "" → s2.name = s1.name) ∧
    (pyStrip s1.service_address ≠ "" → pyStrip s2.service_address ≠ "") ∧
    (pyStrip t.digits ≠ "2" → pyStrip s1.job_description ≠ "" →
      s2.job_description = s1.job_description) ∧
    (pyStrip s1.timing ≠ "" → pyStrip s2.timing ≠ "") ∧
    (pyStrip s1.callback ≠ "" → s2.callback = s1.callback) :=
  voice_process_keeps_fields (voice_process st t crm).1 t crm sid s1 s2 h1 h2

set_option maxRecDepth 8000000 in
/-- C5 counterexample: replaying the same webhook delivery is not
idempotent on the session state or the response.  From the demo store at
step 3 (retries 0), a silent step-3 delivery leaves retries at 1 and
answers with the timing re-prompt; delivering the identical request once
more leaves retries at 2 and answers with the give-up hang-up, so both the
resulting session and the response differ between processing once and
processing twice. -/
theorem c5_counterexample :
    (((voice_process demo10 (demoTurn "CA1" 3 "" "") false).1.sessions "CA1").map
        (fun s => (s.step, s.retries)) = some (3, 1)) ∧
    (((voice_process (voice_process demo10 (demoTurn "CA1" 3 "" "") false).1
          (demoTurn "CA1" 3 "" "") false).1.sessions "CA1").map
        (fun s => (s.step, s.retries)) = some (3, 2)) ∧
    (voice_process demo10 (demoTurn "CA1" 3 "" "") false).2 = Resp.askTiming ∧
    (voice_process (voice_process demo10 (demoTurn "CA1" 3 "" "") false).1
        (demoTurn "CA1" 3 "" "") false).2 = Resp.hangupTiming := by
  refine ⟨?_, ?_, ?_, ?_⟩ <;> decide

set_option maxRecDepth 8000000 in
/-- C6 counterexample: in the spec scenario the caller only speaks their
name on the first turn.  That turn is answered with the name-confirmation
prompt, not an address question; no resume pointer exists yet, so a
reconnecting leg CA2 from the same number pair is neither aliased to CA1
nor resumed — it is greeted with a fresh name prompt. -/
theorem c6_counterexample :
    (voice_process demo0 (demoTurn "CA1" 0 "" "Jane Doe") false).2
        = Resp.confirmName "Jane Doe" ∧
    demo1.resumePtrs ("+1555", "+1777") = none ∧
    (voice_process demo1 (demoTurn "CA2" 0 "" "") false).1.aliases "CA2" = none ∧
    (voice_process demo1 (demoTurn "CA2" 0 "" "") false).2 = Resp.askName := by
  refine ⟨?_, ?_, ?_, ?_⟩ <;> decide

set_option maxRecDepth 8000000 in
/-- C6 (amended): once the spoken name has been confirmed on the original
leg (speech turn, then press 1), the resume pointer for the number pair
names CA1; a new leg CA2 from the same pair is then aliased to CA1,
resolved at the address step, answered with the address introduction, and
the collected name is preserved under CA1. -/
theorem c6_reconnect_resumes :
    demo2.resumePtrs ("+1555", "+1777") = some "CA1" ∧
    (voice_process demo2 (demoTurn "CA2" 0 "" "") false).1.aliases "CA2" = some "CA1" ∧
    (resolve_turn demo2 (demoTurn "CA2" 0 "" "")).rstep = 1 ∧
    (voice_process demo2 (demoTurn "CA2" 0 "" "") false).2 = Resp.introAddress ∧
    ((voice_process demo2 (demoTurn "CA2" 0 "" "") false).1.sessions "CA1").map
        Session.name = some "Jane Doe" := by
  refine ⟨?_, ?_, ?_, ?_, ?_⟩ <;> decide

set_option maxRecDepth 8000000 in
/-- C7 counterexample: the demo trace reaches stored step 4 without any
restart, yet redelivering the stale step-2 confirmation turn moves the
stored step back to 3 — the stored step is not monotonically
non-decreasing across turns. -/
theorem c7_counterexample :
    (demo11.sessions "CA1").map Session.step = some 4 ∧
    ((voice_process demo11 (demoTurn "CA1" 2 "1" "") false).1.sessions "CA1").map
        Session.step = some 3 := by
  refine ⟨?_, ?_⟩ <;> decide

set_option maxRecDepth 8000000 in
/-- C9 counterexample: pressing 2 at the resume menu while an incomplete
session and a live resume pointer exist clears only the pointer.  The
stored CallSession under CA1 is left exactly as it was — it is not
deleted. -/
theorem c9_counterexample :
    demo2.resumePtrs ("+1555", "+1777") = some "CA1" ∧
    (resume_choice demo2 "CA3" "2" "+1555" "+1777" "CA1" 1).1.sessions "CA1"
        = demo2.sessions "CA1" ∧
    ((resume_choice demo2 "CA3" "2" "+1555" "+1777" "CA1" 1).1.sessions "CA1").isSome
        = true ∧
    (resume_choice demo2 "CA3" "2" "+1555" "+1777" "CA1" 1).1.resumePtrs
        ("+1555", "+1777") = none := by
  refine ⟨?_, ?_, ?_, ?_⟩ <;> decide

/-- Witness for C1: the resume fixture (name and address collected, job
empty, pointer set) really is processed at step 2 when a new leg arrives
at request step 0. -/
theorem c1_resume_infers_step2_witness :
    get_resume_pointer resumeStore (pyStrip "+1555") (pyStrip "+1777") = some "CA1" ∧
    (resolve_turn resumeStore (demoTurn "CA2" 0 "" "")).rstep = 2 ∧
    (resolve_turn resumeStore (demoTurn "CA2" 0 "" "")).session.step = 2 := by
  have h := c1_resume_infers_step2 resumeStore (demoTurn "CA2" 0 "" "") "CA1" resumeSession
    (by decide) (by decide) (by decide) (by decide) (by decide) (by decide) (by decide)
    (by decide) (by decide) (by decide)
  exact ⟨by decide, h.1, h.2.1⟩

/-- Witness for C2: on the alias fixture (`CB` aliasing `CA`, pointer
naming `CA`), a new leg `CC` is aliased directly to `CA`, `CB` keeps its
entry, and the turn is processed under `CA`. -/
theorem c2_alias_single_hop_witness :
    aliasStore.aliases "CB" = some "CA" ∧
    (resolve_turn aliasStore (demoTurn "CC" 0 "" "")).store.aliases "CC" = some "CA" ∧
    (resolve_turn aliasStore (demoTurn "CC" 0 "" "")).store.aliases "CB" = some "CA" ∧
    (resolve_turn aliasStore (demoTurn "CC" 0 "" "")).sid = "CA" := by
  have h := c2_alias_single_hop.2 aliasStore (demoTurn "CC" 0 "" "") "CA" "CB"
    (by decide) (by decide) (by decide) (by decide) (by decide) (by decide) (by decide)
    (by decide) (by decide)
  exact ⟨by decide, h.1, h.2.2.1, h.2.2.2⟩

/-- Witness for C3: on the close-out fixture a step-4 turn carrying a
ten-digit callback — processed with the summary send raising (`crm` true) —
deletes the session, clears the pointer, and deregisters the live call. -/
theorem c3_completion_closeout_witness :
    pyStrip (demoTurn "CA9" 4 "2405551234" "").digits ≠ "" ∧
    ((voice_process closeoutStore (demoTurn "CA9" 4 "2405551234" "") true).1).sessions
      (resolve_turn closeoutStore (demoTurn "CA9" 4 "2405551234" "")).sid = none ∧
    ((voice_process closeoutStore (demoTurn "CA9" 4 "2405551234" "") true).1).resumePtrs
      (pyStrip (demoTurn "CA9" 4 "2405551234" "").to_number,
       pyStrip (demoTurn "CA9" 4 "2405551234" "").from_number) = none ∧
    (resolve_turn closeoutStore (demoTurn "CA9" 4 "2405551234" "")).sid ∉
      ((voice_process closeoutStore (demoTurn "CA9" 4 "2405551234" "") true).1).liveCalls
        "+1555" := by
  have h := c3_completion_closeout closeoutStore (demoTurn "CA9" 4 "2405551234" "")
    closeoutSession "+1555" (by decide) (by decide) (by decide) (by decide) (by decide)
    (by decide) (by decide) (by decide) (Or.inl (by decide)) true
  exact ⟨by decide, h.1, h.2.1, h.2.2⟩

/-- Witness for C4: on the retry fixture, the press-2 / speak / press-2
sequence leaves first an empty name with the counter at 1, then the
unconfirmed acceptance of the second candidate at step 1. -/
theorem c4_retry_cap_witness :
    pyStrip "Jane Q Doe" ≠ "" ∧
    ((((voice_process retryStore
        { call_sid := "CA1", step := 0, digits := "2", speech := "",
          to_number := "+1555", from_number := "+1777" } false).1).sessions "CA1").map
        (fun s1 => (s1.name, s1.step, s1.name_attempts, s1.name_candidate))
      = some ("", 0, 1, "")) ∧
    ((((voice_process
        ((voice_process
          ((voice_process retryStore
            { call_sid := "CA1", step := 0, digits := "2", speech := "",
              to_number := "+1555", from_number := "+1777" } false).1)
          { call_sid := "CA1", step := 0, digits := "", speech := "Jane Q Doe",
            to_number := "+1555", from_number := "+1777" } false).1)
        { call_sid := "CA1", step := 0, digits := "2", speech := "",
          to_number := "+1555", from_number := "+1777" } false).1).sessions "CA1").map
        (fun s3 => (s3.name, s3.name_confirmed, s3.step, s3.name_attempts))
      = some (pyStrip "Jane Q Doe", some false, 1, 0)) := by
  have h := c4_retry_cap retryStore "CA1" "+1555" "+1777" "Jane Q Doe" false retrySession
    (by decide) (by decide) (by decide) (by decide) (by decide) (by decide) (by decide)
    (by decide) (by decide) (by decide)
  exact ⟨by decide, h.1, h.2⟩

/-- Witness for C5 (amended): a silent step-3 delivery and its replay give
sessions that differ in the retry counter yet agree on every collected
field, as the amended claim asserts for the name and callback here. -/
theorem c5_replay_keeps_fields_witness :
    ((voice_process step3Store (demoTurn "CA9" 3 "" "") false).1).sessions "CA9"
      = some { step3Session with retries := 1 } ∧
    ((voice_process (voice_process step3Store (demoTurn "CA9" 3 "" "") false).1
        (demoTurn "CA9" 3 "" "") false).1).sessions "CA9"
      = some { step3Session with retries := 2 } ∧
    ({ step3Session with retries := 2 } : Session).name
      = ({ step3Session with retries := 1 } : Session).name ∧
    ({ step3Session with retries := 2 } : Session).callback
      = ({ step3Session with retries := 1 } : Session).callback := by
  have h := c5_replay_keeps_fields step3Store (demoTurn "CA9" 3 "" "") false "CA9"
    { step3Session with retries := 1 } { step3Session with retries := 2 }
    (by decide) (by decide)
  exact ⟨by decide, by decide, h.1 (by decide), h.2.2.2.2 (by decide)⟩

/-- Witness for C7 (amended): confirming the job at step 2 advances the
stored step to 3 while keeping the collected name and job description. -/
theorem c7_field_monotonicity_witness :
    ((voice_process confirmStore (demoTurn "CA9" 2 "1" "") false).1).sessions "CA9"
      = some { confirmSession with step := 3 } ∧
    pyStrip confirmSession.name ≠ "" ∧
    ({ confirmSession with step := 3 } : Session).name = confirmSession.name ∧
    ({ confirmSession with step := 3 } : Session).job_description
      = confirmSession.job_description := by
  have h := c7_field_monotonicity confirmStore (demoTurn "CA9" 2 "1" "") false "CA9"
    confirmSession { confirmSession with step := 3 } (by decide) (by decide)
  exact ⟨by decide, by decide, h.1 (by decide), h.2.2.1 (by decide) (by decide)⟩

/-- Witness for C8: on the confirmation fixture the step-2 turn reaching
step 3 indeed carried the press-1 digit, and three speak-then-press-2
repeat rounds leave the waiting fixture still waiting at step 2. -/
theorem c8_step2_requires_press1_witness :
    (confirmSession.step = 3 ∨ pyStrip (demoTurn "CA9" 2 "1" "").digits = "1") ∧
    step2_waiting "CA9"
      ((job_repeat_cycle "CA9" "fix sink" "+1555" "+1777" false)^[3] waitingStore) := by
  refine ⟨c8_step2_requires_press1.1 confirmStore (demoTurn "CA9" 2 "1" "") false
    confirmSession { confirmSession with step := 3 } (by decide) (by decide) (by decide)
    (by decide) (by decide) (by decide),
    c8_step2_requires_press1.2 "CA9" "fix sink" "+1555" "+1777" false waitingStore 3
    (by decide) (by decide) ?_⟩
  exact ⟨by decide, by decide, waitingSession, by decide, by decide, by decide⟩

set_option maxRecDepth 8000000 in
/-- Witness for C9 (amended): pressing 2 on the demo store after the name
confirmation leaves the session keyspace untouched, answers with the
restart redirect, and clears the pointer. -/
theorem c9_restart_clears_pointer_only_witness :
    pyStrip "2" = "2" ∧
    (resume_choice demo2 "CA3" "2" "+1555" "+1777" "CA1" 1).1.sessions = demo2.sessions ∧
    (resume_choice demo2 "CA3" "2" "+1555" "+1777" "CA1" 1).2 = Resp.restartIntake ∧
    (resume_choice demo2 "CA3" "2" "+1555" "+1777" "CA1" 1).1.resumePtrs
      (pyStrip "+1555", pyStrip "+1777") = none := by
  have h := c9_restart_clears_pointer_only demo2 "CA3" "2" "+1555" "+1777" "CA1" 1
    (by decide)
  exact ⟨by decide, h.1, h.2.1, h.2.2 (by decide) (by decide) (by decide)⟩

end MmeBot
